import Mathlib

/-!
Verification of the session-management and rate-limiting core of the
pytaiga-mcp bridge (src/server.py, src/types.py).

Shallow embedding: timestamps are natural numbers (whole seconds of
wall-clock time, passed explicitly as `now`), Python dicts become
insertion-ordered association lists, mutation becomes explicit state
passing, raised exceptions become explicit result values.
-/

set_option maxHeartbeats 1000000

/-- Association-list lookup: first binding of the key, like a Python
dict read (keys are unique in every state we build). -/
def alookup {α β : Type} [DecidableEq α] (k : α) : List (α × β) → Option β
  | [] => none
  | (k2, v) :: rest => if k = k2 then some v else alookup k rest

/-- Association-list write: replace the first binding of the key in
place, or append a fresh binding at the end — matching Python dict
assignment, which preserves insertion order. -/
def aset {α β : Type} [DecidableEq α] (k : α) (v : β) : List (α × β) → List (α × β)
  | [] => [(k, v)]
  | (k2, v2) :: rest => if k = k2 then (k, v) :: rest else (k2, v2) :: aset k v rest

/-- Association-list delete of the first binding of the key, matching
Python `dict.pop(k, None)`. -/
def aerase {α β : Type} [DecidableEq α] (k : α) : List (α × β) → List (α × β)
  | [] => []
  | (k2, v2) :: rest => if k = k2 then rest else (k2, v2) :: aerase k rest

/-- Configuration knobs read from the environment by the source
(SESSION_EXPIRY, MAX_CONCURRENT_SESSIONS, LOGIN_MAX_ATTEMPTS,
LOGIN_RATE_WINDOW, LOGIN_LOCKOUT_DURATION). -/
structure Config where
  session_expiry : Int
  max_concurrent_sessions : Nat
  login_max_attempts : Nat
  login_rate_window : Nat
  login_lockout_duration : Nat
deriving DecidableEq

/-- Opaque handle to an authenticated external API client
(TaigaClientWrapper); the session core reads only `is_authenticated`. -/
structure TaigaClientWrapper where
  cid : Nat
  is_authenticated : Bool
deriving DecidableEq

/-- Session record (src/types.py SessionInfo). -/
structure SessionInfo where
  session_id : Nat
  client : TaigaClientWrapper
  username : String
  created_at : Nat
  last_accessed : Nat
  expires_at : Nat
deriving DecidableEq

/-- Session construction: SessionInfo dataclass defaults plus
`__post_init__`, which sets `expires_at = created_at + ttl` where the
TTL comes from SESSION_EXPIRY and non-positive values fall back to
28800 seconds. -/
def sessionTTL (cfg : Config) : Nat :=
  if cfg.session_expiry ≤ 0 then 28800 else cfg.session_expiry.toNat

def mkSessionInfo (cfg : Config) (sid : Nat) (client : TaigaClientWrapper)
    (username : String) (now : Nat) : SessionInfo :=
  { session_id := sid, client := client, username := username,
    created_at := now, last_accessed := now, expires_at := now + sessionTTL cfg }

/-- SessionInfo.is_expired: `datetime.utcnow() >= self.expires_at`. -/
def SessionInfo.is_expired (s : SessionInfo) (now : Nat) : Bool :=
  decide (s.expires_at ≤ now)

/-- SessionInfo.update_last_accessed. -/
def SessionInfo.update_last_accessed (s : SessionInfo) (now : Nat) : SessionInfo :=
  { s with last_accessed := now }

/-- The shared session state: `active_sessions`, `sessions_by_user`,
plus a counter standing in for the uuid4 generator (each generated
identifier is fresh). -/
structure ServerState where
  active_sessions : List (Nat × SessionInfo)
  sessions_by_user : List (String × List Nat)
  next_session_id : Nat
deriving DecidableEq

/-- The ordered list of a user's session ids (empty when the user has
no entry), as read by `sessions_by_user.get(username, [])`. -/
def userList (st : ServerState) (u : String) : List Nat :=
  (alookup u st.sessions_by_user).getD []

/-- server.py `_cleanup_session`: pop the session record, remove the id
from its owner's list, and drop the owner's entry if the list became
empty. -/
def cleanup_session (session_id : Nat) (st : ServerState) : ServerState :=
  match alookup session_id st.active_sessions with
  | none => st
  | some info =>
      let active2 := aerase session_id st.active_sessions
      let user_sessions := (userList st info.username).erase session_id
      let byUser2 :=
        if user_sessions.isEmpty then aerase info.username st.sessions_by_user
        else aset info.username user_sessions st.sessions_by_user
      { st with active_sessions := active2, sessions_by_user := byUser2 }

/-- The store-mutation section of server.py `login` (the block under
`with _session_lock`): evict the oldest session when the concurrency
limit is met or exceeded, then insert the new session into both maps.
Returns the new id, the evicted id (if any), and the new state. -/
def login_store (cfg : Config) (username : String) (wrapper : TaigaClientWrapper)
    (now : Nat) (st : ServerState) : Nat × Option Nat × ServerState :=
  let user_sessions := userList st username
  let evicted : Option Nat :=
    if 0 < cfg.max_concurrent_sessions ∧
        cfg.max_concurrent_sessions ≤ user_sessions.length then
      user_sessions.head?
    else none
  let st1 := match evicted with
    | some oldest => cleanup_session oldest st
    | none => st
  let sid := st1.next_session_id
  let info := mkSessionInfo cfg sid wrapper username now
  (sid, evicted,
    { active_sessions := aset sid info st1.active_sessions,
      sessions_by_user := aset username (userList st1 username ++ [sid]) st1.sessions_by_user,
      next_session_id := sid + 1 })

/-- Failure modes of `_get_authenticated_client` (each raised as a
PermissionError in the source). -/
inductive AuthFailure
  | invalid_session
  | expired
  | auth_lost
deriving DecidableEq

/-- server.py `_get_authenticated_client`: three-stage validation;
expired or unauthenticated sessions are purged; on success
`last_accessed` is refreshed and the stored client is returned. -/
def get_authenticated_client (session_id : Nat) (now : Nat) (st : ServerState) :
    Except AuthFailure TaigaClientWrapper × ServerState :=
  match alookup session_id st.active_sessions with
  | none => (Except.error AuthFailure.invalid_session, st)
  | some info =>
      if info.is_expired now then
        (Except.error AuthFailure.expired, cleanup_session session_id st)
      else if !info.client.is_authenticated then
        (Except.error AuthFailure.auth_lost, cleanup_session session_id st)
      else
        (Except.ok info.client,
          { st with
            active_sessions :=
              aset session_id (info.update_last_accessed now) st.active_sessions })

/-- server.py `logout`: report whether a session was present, removing
it when it was. -/
inductive LogoutStatus
  | logged_out
  | session_not_found
deriving DecidableEq

def logout (session_id : Nat) (st : ServerState) : LogoutStatus × ServerState :=
  match alookup session_id st.active_sessions with
  | some _ => (LogoutStatus.logged_out, cleanup_session session_id st)
  | none => (LogoutStatus.session_not_found, st)

/-- The dictionary returned by server.py `session_status`. -/
structure StatusResponse where
  status : String
  resp_session_id : Nat
  username : Option String := none
  created_at : Option Nat := none
  last_accessed : Option Nat := none
  expires_at : Option Nat := none
  time_until_expiry_seconds : Option Nat := none
  reason : Option String := none
deriving DecidableEq

/-- server.py `session_status`: never raises; unknown ids report
inactive/not_found without touching state; expired or unauthenticated
sessions are purged and reported inactive with a reason; otherwise one
liveness round-trip (`users.me()`, modelled by `me_result`: an
exception or a dict whose username key may be absent) decides between
the active metadata response and an error response with purge. -/
def session_status (session_id : Nat) (now : Nat)
    (me_result : Except String (Option String)) (st : ServerState) :
    StatusResponse × ServerState :=
  match alookup session_id st.active_sessions with
  | none =>
      ({ status := "inactive", resp_session_id := session_id, reason := some "not_found" }, st)
  | some info =>
      if info.is_expired now then
        ({ status := "inactive", resp_session_id := session_id, reason := some "expired",
           username := some info.username }, cleanup_session session_id st)
      else if !info.client.is_authenticated then
        ({ status := "inactive", resp_session_id := session_id, reason := some "token_invalid",
           username := some info.username }, cleanup_session session_id st)
      else
        match me_result with
        | Except.ok me_username =>
            ({ status := "active", resp_session_id := session_id,
               username := some (me_username.getD info.username),
               created_at := some info.created_at,
               last_accessed := some info.last_accessed,
               expires_at := some info.expires_at,
               time_until_expiry_seconds := some (info.expires_at - now) }, st)
        | Except.error e =>
            ({ status := "error", resp_session_id := session_id,
               reason := some ("api_error: " ++ e) }, cleanup_session session_id st)

/-- server.py `_cleanup_expired_sessions_sync` (the background session
reaper body): snapshot the store, collect expired ids, destroy each
through `_cleanup_session`; returns the count removed. -/
def cleanup_expired_sessions_sync (now : Nat) (st : ServerState) : Nat × ServerState :=
  let expired := (st.active_sessions.filter (fun q => q.2.is_expired now)).map Prod.fst
  (expired.length, expired.foldl (fun s i => cleanup_session i s) st)

/-- Login attempt record (src/types.py LoginAttempt). -/
structure LoginAttempt where
  timestamp : Nat
  username : String
  success : Bool
deriving DecidableEq

/-- Per-user rate-limit record (src/types.py RateLimitInfo): attempt
sequence oldest-first plus an optional lockout-expiry timestamp. -/
structure RateLimitInfo where
  attempts : List LoginAttempt
  locked_until : Option Nat
deriving DecidableEq

/-- RateLimitInfo.is_locked_out: `datetime.utcnow() < self.locked_until`. -/
def RateLimitInfo.is_locked_out (r : RateLimitInfo) (now : Nat) : Bool :=
  match r.locked_until with
  | none => false
  | some lu => decide (now < lu)

/-- RateLimitInfo.remaining_lockout_time: whole seconds left in the
lockout, 0 when not locked out. -/
def RateLimitInfo.remaining_lockout_time (r : RateLimitInfo) (now : Nat) : Nat :=
  if r.is_locked_out now then
    match r.locked_until with
    | none => 0
    | some lu => lu - now
  else 0

/-- The rate-limit map (`rate_limit_data` in server.py). -/
abbrev RateData : Type := List (String × RateLimitInfo)

/-- Outcome of `_check_rate_limit` (`ok` = returns normally; the other
two are the PermissionError branches for an active lockout and for the
threshold being reached). -/
inductive RateCheckResult
  | ok
  | locked_out (remaining : Nat)
  | threshold_exceeded
deriving DecidableEq

/-- The sliding-window trim in `_check_rate_limit`:
`while attempts and attempts[0].timestamp < cutoff: attempts.popleft()`. -/
def prune_window (cutoff : Nat) : List LoginAttempt → List LoginAttempt
  | [] => []
  | a :: rest => if a.timestamp < cutoff then prune_window cutoff rest else a :: rest

/-- server.py `_check_rate_limit`: bypass when LOGIN_MAX_ATTEMPTS = 0;
success when the user has no record; an active lockout fails with the
remaining seconds; otherwise trim the window, count failed attempts,
and at or above the threshold set the lockout and fail.  The Python
cutoff `utcnow() - window` compares equal against natural-number
timestamps because no timestamp is below zero. -/
def check_rate_limit (cfg : Config) (username : String) (now : Nat)
    (data : RateData) : RateCheckResult × RateData :=
  if cfg.login_max_attempts = 0 then (RateCheckResult.ok, data)
  else
    match alookup username data with
    | none => (RateCheckResult.ok, data)
    | some rate_info =>
        if rate_info.is_locked_out now then
          (RateCheckResult.locked_out (rate_info.remaining_lockout_time now), data)
        else
          let cutoff := now - cfg.login_rate_window
          let attempts2 := prune_window cutoff rate_info.attempts
          let failed := attempts2.filter (fun a => !a.success)
          if cfg.login_max_attempts ≤ failed.length then
            (RateCheckResult.threshold_exceeded,
              aset username
                { attempts := attempts2,
                  locked_until := some (now + cfg.login_lockout_duration) } data)
          else
            (RateCheckResult.ok,
              aset username
                { attempts := attempts2, locked_until := rate_info.locked_until } data)

/-- server.py `_track_login_attempt`: lazily create the record, append
the attempt; on success clear the lockout and keep only successful
attempts. -/
def track_login_attempt (username : String) (success : Bool) (now : Nat)
    (data : RateData) : RateData :=
  let rate_info := (alookup username data).getD { attempts := [], locked_until := none }
  let attempts2 := rate_info.attempts ++ [{ timestamp := now, username := username,
                                            success := success }]
  let rate_info2 :=
    if success then
      { attempts := attempts2.filter (fun a => a.success), locked_until := none }
    else
      { rate_info with attempts := attempts2 }
  aset username rate_info2 data

/-- Combined process state: session stores plus the rate-limit map. -/
structure SystemState where
  sessions : ServerState
  rate_limit_data : RateData
deriving DecidableEq

/-- Outcome of the `login` tool. -/
inductive LoginOutcome
  | success (session_id : Nat) (evicted : Option Nat)
  | rate_limited (r : RateCheckResult)
  | login_failed
deriving DecidableEq

/-- server.py `login` orchestration: rate-limit check first (its raise
aborts the call), then the external credential check (modelled by
`login_successful`), then on success the locked store mutation followed
by `_track_login_attempt(username, True)`; on credential failure only
`_track_login_attempt(username, False)`. -/
def login (cfg : Config) (username : String) (wrapper : TaigaClientWrapper)
    (login_successful : Bool) (now : Nat) (sys : SystemState) :
    LoginOutcome × SystemState :=
  match check_rate_limit cfg username now sys.rate_limit_data with
  | (RateCheckResult.ok, rate1) =>
      if login_successful then
        match login_store cfg username wrapper now sys.sessions with
        | (sid, evicted, st2) =>
            (LoginOutcome.success sid evicted,
              { sessions := st2, rate_limit_data := track_login_attempt username true now rate1 })
      else
        (LoginOutcome.login_failed,
          { sessions := sys.sessions,
            rate_limit_data := track_login_attempt username false now rate1 })
  | (r, rate1) =>
      (LoginOutcome.rate_limited r, { sessions := sys.sessions, rate_limit_data := rate1 })

deriving instance DecidableEq for Except

/-! Association-list lemmas used throughout the invariant proofs. -/

theorem mem_of_alookup {α β : Type} [DecidableEq α] {k : α} {v : β} :
    ∀ {l : List (α × β)}, alookup k l = some v → (k, v) ∈ l := by
  intro l
  induction l with
  | nil => simp [alookup]
  | cons p rest ih =>
      cases p with
      | mk k2 v2 =>
          simp only [alookup]
          by_cases h : k = k2
          · subst h
            rw [if_pos rfl]
            intro hv
            injection hv with hv
            exact List.mem_cons.mpr (Or.inl (by rw [hv]))
          · rw [if_neg h]
            intro hv
            exact List.mem_cons.mpr (Or.inr (ih hv))

theorem keys_mem_of_mem {α β : Type} {p : α × β} {l : List (α × β)}
    (h : p ∈ l) : p.1 ∈ l.map Prod.fst :=
  List.mem_map_of_mem Prod.fst h

theorem alookup_of_mem {α β : Type} [DecidableEq α] {k : α} {v : β} :
    ∀ {l : List (α × β)}, (l.map Prod.fst).Nodup → (k, v) ∈ l → alookup k l = some v := by
  intro l
  induction l with
  | nil => simp
  | cons p rest ih =>
      cases p with
      | mk k2 v2 =>
          intro hnd hm
          simp only [List.map_cons, List.nodup_cons] at hnd
          rcases List.mem_cons.mp hm with heq | hrest
          · cases heq
            simp [alookup]
          · have hk : k ≠ k2 := by
              intro hkk
              subst hkk
              exact hnd.1 (keys_mem_of_mem hrest)
            simp [alookup, hk]
            exact ih hnd.2 hrest

theorem alookup_none_of_not_mem {α β : Type} [DecidableEq α] {k : α} :
    ∀ {l : List (α × β)}, k ∉ l.map Prod.fst → alookup k l = none := by
  intro l
  induction l with
  | nil => simp [alookup]
  | cons p rest ih =>
      cases p with
      | mk k2 v2 =>
          intro hk
          simp only [List.map_cons, List.mem_cons] at hk
          push_neg at hk
          simp [alookup, hk.1]
          exact ih hk.2

theorem alookup_aset_self {α β : Type} [DecidableEq α] (k : α) (v : β) :
    ∀ (l : List (α × β)), alookup k (aset k v l) = some v := by
  intro l
  induction l with
  | nil => simp [aset, alookup]
  | cons p rest ih =>
      cases p with
      | mk k2 v2 =>
          by_cases h : k = k2 <;> simp [aset, alookup, h, ih]

theorem alookup_aset_ne {α β : Type} [DecidableEq α] {k2 k : α} (v : β)
    (h : k2 ≠ k) : ∀ (l : List (α × β)), alookup k2 (aset k v l) = alookup k2 l := by
  intro l
  induction l with
  | nil => simp [aset, alookup, h]
  | cons p rest ih =>
      cases p with
      | mk k3 v3 =>
          by_cases hk : k = k3
          · subst hk
            simp [aset, alookup, h]
          · simp only [aset, if_neg hk, alookup]
            by_cases hk2 : k2 = k3 <;> simp [hk2, ih]

theorem mem_keys_aset {α β : Type} [DecidableEq α] {a k : α} {v : β} :
    ∀ {l : List (α × β)}, a ∈ (aset k v l).map Prod.fst → a = k ∨ a ∈ l.map Prod.fst := by
  intro l
  induction l with
  | nil => simp [aset]
  | cons p rest ih =>
      cases p with
      | mk k2 v2 =>
          by_cases h : k = k2
          · subst h
            simp [aset]
          · simp only [aset, if_neg h, List.map_cons, List.mem_cons]
            intro hm
            rcases hm with h1 | h2
            · exact Or.inr (Or.inl h1)
            · rcases ih h2 with h3 | h4
              · exact Or.inl h3
              · exact Or.inr (Or.inr h4)

theorem keys_aset_nodup {α β : Type} [DecidableEq α] {k : α} {v : β} :
    ∀ {l : List (α × β)}, (l.map Prod.fst).Nodup → ((aset k v l).map Prod.fst).Nodup := by
  intro l
  induction l with
  | nil => simp [aset]
  | cons p rest ih =>
      cases p with
      | mk k2 v2 =>
          intro hnd
          simp only [List.map_cons, List.nodup_cons] at hnd
          simp only [aset]
          by_cases h : k = k2
          · subst h
            rw [if_pos rfl]
            simp only [List.map_cons, List.nodup_cons]
            exact hnd
          · rw [if_neg h]
            simp only [List.map_cons, List.nodup_cons]
            constructor
            · intro hm
              rcases mem_keys_aset hm with h1 | h2
              · exact h (h1.symm)
              · exact hnd.1 h2
            · exact ih hnd.2

theorem mem_aset_iff {α β : Type} [DecidableEq α] {p : α × β} {k : α} {v : β} :
    ∀ {l : List (α × β)}, (l.map Prod.fst).Nodup →
      (p ∈ aset k v l ↔ p = (k, v) ∨ (p ∈ l ∧ p.1 ≠ k)) := by
  intro l
  induction l with
  | nil => simp [aset]
  | cons q rest ih =>
      cases q with
      | mk k2 v2 =>
          intro hnd
          simp only [List.map_cons, List.nodup_cons] at hnd
          simp only [aset]
          by_cases h : k = k2
          · subst h
            rw [if_pos rfl]
            constructor
            · intro hm
              rcases List.mem_cons.mp hm with h1 | h2
              · exact Or.inl h1
              · refine Or.inr ⟨List.mem_cons.mpr (Or.inr h2), ?_⟩
                intro hp
                exact hnd.1 (hp ▸ keys_mem_of_mem h2)
            · intro hm
              rcases hm with h1 | ⟨h2, h3⟩
              · exact List.mem_cons.mpr (Or.inl h1)
              · rcases List.mem_cons.mp h2 with h4 | h5
                · exact absurd (by rw [h4]) h3
                · exact List.mem_cons.mpr (Or.inr h5)
          · rw [if_neg h]
            constructor
            · intro hm
              rcases List.mem_cons.mp hm with h1 | h2
              · refine Or.inr ⟨List.mem_cons.mpr (Or.inl h1), ?_⟩
                rw [h1]
                intro hk
                exact h hk.symm
              · rcases (ih hnd.2).mp h2 with h3 | ⟨h4, h5⟩
                · exact Or.inl h3
                · exact Or.inr ⟨List.mem_cons.mpr (Or.inr h4), h5⟩
            · intro hm
              rcases hm with h1 | ⟨h2, h3⟩
              · exact List.mem_cons.mpr (Or.inr ((ih hnd.2).mpr (Or.inl h1)))
              · rcases List.mem_cons.mp h2 with h4 | h5
                · exact List.mem_cons.mpr (Or.inl h4)
                · exact List.mem_cons.mpr (Or.inr ((ih hnd.2).mpr (Or.inr ⟨h5, h3⟩)))

theorem aset_append_of_not_mem {α β : Type} [DecidableEq α] {k : α} (v : β) :
    ∀ {l : List (α × β)}, k ∉ l.map Prod.fst → aset k v l = l ++ [(k, v)] := by
  intro l
  induction l with
  | nil => simp [aset]
  | cons p rest ih =>
      cases p with
      | mk k2 v2 =>
          intro hk
          simp only [List.map_cons, List.mem_cons] at hk
          push_neg at hk
          simp [aset, hk.1, ih hk.2]

theorem keys_aerase_sublist {α β : Type} [DecidableEq α] (k : α) :
    ∀ (l : List (α × β)), ((aerase k l).map Prod.fst).Sublist (l.map Prod.fst) := by
  intro l
  induction l with
  | nil => simp [aerase]
  | cons p rest ih =>
      cases p with
      | mk k2 v2 =>
          simp only [aerase]
          by_cases h : k = k2
          · rw [if_pos h]
            simp only [List.map_cons]
            exact List.sublist_cons_self k2 (rest.map Prod.fst)
          · rw [if_neg h]
            simp only [List.map_cons]
            exact List.Sublist.cons₂ k2 ih

theorem keys_aerase_nodup {α β : Type} [DecidableEq α] {k : α} {l : List (α × β)}
    (hnd : (l.map Prod.fst).Nodup) : ((aerase k l).map Prod.fst).Nodup :=
  (keys_aerase_sublist k l).nodup hnd

theorem alookup_aerase_self {α β : Type} [DecidableEq α] {k : α} :
    ∀ {l : List (α × β)}, (l.map Prod.fst).Nodup → alookup k (aerase k l) = none := by
  intro l
  induction l with
  | nil => simp [aerase, alookup]
  | cons p rest ih =>
      cases p with
      | mk k2 v2 =>
          intro hnd
          simp only [List.map_cons, List.nodup_cons] at hnd
          by_cases h : k = k2
          · subst h
            simp only [aerase, if_pos rfl]
            exact alookup_none_of_not_mem hnd.1
          · simp only [aerase, if_neg h, alookup, if_neg h]
            exact ih hnd.2

theorem alookup_aerase_ne {α β : Type} [DecidableEq α] {k2 k : α} (h : k2 ≠ k) :
    ∀ (l : List (α × β)), alookup k2 (aerase k l) = alookup k2 l := by
  intro l
  induction l with
  | nil => simp [aerase]
  | cons p rest ih =>
      cases p with
      | mk k3 v3 =>
          by_cases hk : k = k3
          · subst hk
            simp [aerase, alookup, h]
          · simp only [aerase, if_neg hk, alookup]
            by_cases hk2 : k2 = k3 <;> simp [hk2, ih]

theorem mem_aerase_iff {α β : Type} [DecidableEq α] {p : α × β} {k : α} :
    ∀ {l : List (α × β)}, (l.map Prod.fst).Nodup →
      (p ∈ aerase k l ↔ p ∈ l ∧ p.1 ≠ k) := by
  intro l
  induction l with
  | nil => simp [aerase]
  | cons q rest ih =>
      cases q with
      | mk k2 v2 =>
          intro hnd
          simp only [List.map_cons, List.nodup_cons] at hnd
          by_cases h : k = k2
          · subst h
            simp only [aerase, if_pos rfl, List.mem_cons]
            constructor
            · intro hm
              refine ⟨Or.inr hm, ?_⟩
              intro hp
              exact hnd.1 (hp ▸ keys_mem_of_mem hm)
            · intro ⟨hm, hne⟩
              rcases hm with h1 | h2
              · exact absurd (by rw [h1]) hne
              · exact h2
          · simp only [aerase, if_neg h, List.mem_cons]
            rw [ih hnd.2]
            constructor
            · intro hm
              rcases hm with h1 | ⟨h2, h3⟩
              · refine ⟨Or.inl h1, ?_⟩
                rw [h1]
                intro hk
                exact h hk.symm
              · exact ⟨Or.inr h2, h3⟩
            · intro ⟨hm, hne⟩
              rcases hm with h1 | h2
              · exact Or.inl h1
              · exact Or.inr ⟨h2, hne⟩

/-! Store invariant and cross-map consistency. -/

/-- Strong store invariant: unique keys in both maps, non-empty
duplicate-free user lists, every listed id owned by a stored session of
that user, every stored session listed under its own user, and all
stored ids below the id-generator counter. -/
def StoreInv (st : ServerState) : Prop :=
  (st.active_sessions.map Prod.fst).Nodup ∧
  (st.sessions_by_user.map Prod.fst).Nodup ∧
  (∀ p ∈ st.sessions_by_user, p.2 ≠ [] ∧ p.2.Nodup) ∧
  (∀ p ∈ st.sessions_by_user, ∀ s2 ∈ p.2,
      ∃ q ∈ st.active_sessions, q.1 = s2 ∧ q.2.username = p.1) ∧
  (∀ q ∈ st.active_sessions, q.1 ∈ userList st q.2.username ∧ q.1 < st.next_session_id)

instance instDecidableInv (st : ServerState) : Decidable (StoreInv st) := by
  unfold StoreInv userList
  infer_instance

/-- The spec's cross-map consistency: an identifier appears in some
user's list iff it is a key of the session store, and no user is mapped
to an empty list. -/
def Consistent (st : ServerState) : Prop :=
  (∀ p ∈ st.sessions_by_user, ∀ s2 ∈ p.2, ∃ q ∈ st.active_sessions, q.1 = s2) ∧
  (∀ q ∈ st.active_sessions, ∃ p ∈ st.sessions_by_user, q.1 ∈ p.2) ∧
  (∀ p ∈ st.sessions_by_user, p.2 ≠ [])

instance instDecidableConsistent (st : ServerState) : Decidable (Consistent st) := by
  unfold Consistent
  infer_instance

theorem StoreInv.consistent {st : ServerState} (h : StoreInv st) : Consistent st := by
  obtain ⟨hA, hB, hNE, hIdx, hAct⟩ := h
  refine ⟨?_, ?_, ?_⟩
  · intro p hp s2 hs
    obtain ⟨q, hq, hq1, _⟩ := hIdx p hp s2 hs
    exact ⟨q, hq, hq1⟩
  · intro q hq
    obtain ⟨hmem, _⟩ := hAct q hq
    unfold userList at hmem
    cases hul : alookup q.2.username st.sessions_by_user with
    | none =>
        rw [hul] at hmem
        simp at hmem
    | some l =>
        rw [hul] at hmem
        simp only [Option.getD_some] at hmem
        exact ⟨(q.2.username, l), mem_of_alookup hul, hmem⟩
  · intro p hp
    exact (hNE p hp).1

theorem cleanup_session_none {sid : Nat} {st : ServerState}
    (h : alookup sid st.active_sessions = none) : cleanup_session sid st = st := by
  unfold cleanup_session
  split
  · rfl
  · next info heq =>
      rw [h] at heq
      cases heq

theorem cleanup_session_some {sid : Nat} {st : ServerState} {info : SessionInfo}
    (hlk : alookup sid st.active_sessions = some info) {l : List Nat}
    (hul : alookup info.username st.sessions_by_user = some l) :
    cleanup_session sid st =
      { st with
        active_sessions := aerase sid st.active_sessions,
        sessions_by_user :=
          if (l.erase sid).isEmpty then aerase info.username st.sessions_by_user
          else aset info.username (l.erase sid) st.sessions_by_user } := by
  unfold cleanup_session
  split
  · next heq =>
      rw [hlk] at heq
      cases heq
  · next info2 heq =>
      rw [hlk] at heq
      injection heq with heq2
      subst heq2
      unfold userList
      rw [hul]
      rfl

theorem StoreInv.cleanup {st : ServerState} (sid : Nat) (h : StoreInv st) :
    StoreInv (cleanup_session sid st) := by
  obtain ⟨hA, hB, hNE, hIdx, hAct⟩ := h
  cases hlk : alookup sid st.active_sessions with
  | none =>
      rw [cleanup_session_none hlk]
      exact ⟨hA, hB, hNE, hIdx, hAct⟩
  | some info =>
      have hmem : (sid, info) ∈ st.active_sessions := mem_of_alookup hlk
      have hsid_ul : sid ∈ userList st info.username := (hAct (sid, info) hmem).1
      cases hul : alookup info.username st.sessions_by_user with
      | none =>
          exfalso
          unfold userList at hsid_ul
          rw [hul] at hsid_ul
          simp at hsid_ul
      | some l =>
          have hul_mem : (info.username, l) ∈ st.sessions_by_user := mem_of_alookup hul
          have hlnd : l.Nodup := (hNE _ hul_mem).2
          have huserList : userList st info.username = l := by
            unfold userList
            rw [hul]
            rfl
          have hsidl : sid ∈ l := by
            rw [huserList] at hsid_ul
            exact hsid_ul
          have hAe : (List.map Prod.fst (aerase sid st.active_sessions)).Nodup :=
            keys_aerase_nodup hA
          have hkey : ∀ qk qv, (qk, qv) ∈ st.active_sessions → qk = sid → qv = info := by
            intro qk qv hq hq1
            subst hq1
            have h2 := alookup_of_mem hA hq
            rw [hlk] at h2
            injection h2 with h3
            exact h3.symm
          have hppres : ∀ p ∈ st.sessions_by_user, p.1 ≠ info.username →
              ∀ s2 ∈ p.2, ∃ q ∈ aerase sid st.active_sessions,
                q.1 = s2 ∧ q.2.username = p.1 := by
            intro p hp hpne s2 hs2
            obtain ⟨q, hq, hq1, hq2⟩ := hIdx p hp s2 hs2
            have hqsid : q.1 ≠ sid := by
              intro hq3
              cases q with
              | mk qk qv =>
                  have h4 := hkey qk qv hq hq3
                  subst h4
                  exact hpne hq2.symm
            exact ⟨q, (mem_aerase_iff hA).mpr ⟨hq, hqsid⟩, hq1, hq2⟩
          have howner : ∀ s2 ∈ l.erase sid, ∃ q ∈ aerase sid st.active_sessions,
              q.1 = s2 ∧ q.2.username = info.username := by
            intro s2 hs2
            have hs2l : s2 ∈ l := List.mem_of_mem_erase hs2
            have hs2ne : s2 ≠ sid := by
              intro he
              rw [he] at hs2
              exact hlnd.not_mem_erase hs2
            obtain ⟨q, hq, hq1, hq2⟩ := hIdx (info.username, l) hul_mem s2 hs2l
            refine ⟨q, (mem_aerase_iff hA).mpr ⟨hq, ?_⟩, hq1, hq2⟩
            rw [hq1]
            exact hs2ne
          rw [cleanup_session_some hlk hul]
          by_cases hemp : (l.erase sid).isEmpty = true
          · rw [if_pos hemp]
            have hnil : l.erase sid = [] := List.isEmpty_iff.mp hemp
            refine ⟨hAe, keys_aerase_nodup hB, ?_, ?_, ?_⟩
            · intro p hp
              exact hNE p ((mem_aerase_iff hB).mp hp).1
            · intro p hp s2 hs2
              obtain ⟨hpmem, hpne⟩ := (mem_aerase_iff hB).mp hp
              exact hppres p hpmem hpne s2 hs2
            · intro q hq
              obtain ⟨hqmem, hqsid⟩ := (mem_aerase_iff hA).mp hq
              obtain ⟨hq_ul, hq_bound⟩ := hAct q hqmem
              refine ⟨?_, hq_bound⟩
              by_cases hu : q.2.username = info.username
              · exfalso
                rw [hu, huserList] at hq_ul
                have h5 : q.1 ∈ l.erase sid := (List.mem_erase_of_ne hqsid).mpr hq_ul
                rw [hnil] at h5
                simp at h5
              · show q.1 ∈ (alookup q.2.username
                  (aerase info.username st.sessions_by_user)).getD []
                rw [alookup_aerase_ne hu]
                exact hq_ul
          · rw [if_neg hemp]
            have hnenil : l.erase sid ≠ [] := by
              intro he
              apply hemp
              rw [he]
              rfl
            refine ⟨hAe, keys_aset_nodup hB, ?_, ?_, ?_⟩
            · intro p hp
              rcases (mem_aset_iff hB).mp hp with hpeq | ⟨hpmem, _⟩
              · rw [hpeq]
                exact ⟨hnenil, hlnd.erase sid⟩
              · exact hNE p hpmem
            · intro p hp s2 hs2
              rcases (mem_aset_iff hB).mp hp with hpeq | ⟨hpmem, hpne⟩
              · subst hpeq
                exact howner s2 hs2
              · exact hppres p hpmem hpne s2 hs2
            · intro q hq
              obtain ⟨hqmem, hqsid⟩ := (mem_aerase_iff hA).mp hq
              obtain ⟨hq_ul, hq_bound⟩ := hAct q hqmem
              refine ⟨?_, hq_bound⟩
              by_cases hu : q.2.username = info.username
              · show q.1 ∈ (alookup q.2.username
                  (aset info.username (l.erase sid) st.sessions_by_user)).getD []
                rw [hu, alookup_aset_self]
                show q.1 ∈ l.erase sid
                refine (List.mem_erase_of_ne hqsid).mpr ?_
                rw [hu, huserList] at hq_ul
                exact hq_ul
              · show q.1 ∈ (alookup q.2.username
                  (aset info.username (l.erase sid) st.sessions_by_user)).getD []
                rw [alookup_aset_ne _ hu]
                exact hq_ul

theorem mem_aset_self {α β : Type} [DecidableEq α] (k : α) (v : β) :
    ∀ (l : List (α × β)), (k, v) ∈ aset k v l := by
  intro l
  induction l with
  | nil => simp [aset]
  | cons p rest ih =>
      cases p with
      | mk k2 v2 =>
          by_cases h : k = k2
          · simp [aset, h]
          · simp only [aset, if_neg h]
            exact List.mem_cons.mpr (Or.inr ih)

/-- The intermediate state of `login` after the optional eviction and
before the insertion of the new session. -/
def login_store_st1 (cfg : Config) (username : String) (st : ServerState) : ServerState :=
  match (if 0 < cfg.max_concurrent_sessions ∧
      cfg.max_concurrent_sessions ≤ (userList st username).length then
      (userList st username).head? else none) with
  | some oldest => cleanup_session oldest st
  | none => st

theorem login_store_decomp (cfg : Config) (username : String) (wrapper : TaigaClientWrapper)
    (now : Nat) (st : ServerState) :
    (login_store cfg username wrapper now st).2.2 =
      { active_sessions :=
          aset (login_store_st1 cfg username st).next_session_id
            (mkSessionInfo cfg (login_store_st1 cfg username st).next_session_id
              wrapper username now)
            (login_store_st1 cfg username st).active_sessions,
        sessions_by_user :=
          aset username
            (userList (login_store_st1 cfg username st) username ++
              [(login_store_st1 cfg username st).next_session_id])
            (login_store_st1 cfg username st).sessions_by_user,
        next_session_id := (login_store_st1 cfg username st).next_session_id + 1 } := rfl

theorem StoreInv.st1 {st : ServerState} (h : StoreInv st) (cfg : Config) (u : String) :
    StoreInv (login_store_st1 cfg u st) := by
  unfold login_store_st1
  split
  · exact StoreInv.cleanup _ h
  · exact h

theorem StoreInv.insert {st : ServerState} (h : StoreInv st) (cfg : Config) (u : String)
    (w : TaigaClientWrapper) (now : Nat) :
    StoreInv
      { active_sessions :=
          aset st.next_session_id (mkSessionInfo cfg st.next_session_id w u now)
            st.active_sessions,
        sessions_by_user :=
          aset u (userList st u ++ [st.next_session_id]) st.sessions_by_user,
        next_session_id := st.next_session_id + 1 } := by
  obtain ⟨hA, hB, hNE, hIdx, hAct⟩ := h
  have hprev : ∀ s2 ∈ userList st u, ∃ q ∈ st.active_sessions, q.1 = s2 ∧ q.2.username = u := by
    intro s2 hs2
    unfold userList at hs2
    cases hul : alookup u st.sessions_by_user with
    | none =>
        rw [hul] at hs2
        simp at hs2
    | some l =>
        rw [hul] at hs2
        simp only [Option.getD_some] at hs2
        exact hIdx (u, l) (mem_of_alookup hul) s2 hs2
  have hprevnd : (userList st u).Nodup := by
    unfold userList
    cases hul : alookup u st.sessions_by_user with
    | none => simp
    | some l =>
        simp only [Option.getD_some]
        exact (hNE (u, l) (mem_of_alookup hul)).2
  have hprevlt : ∀ s2 ∈ userList st u, s2 < st.next_session_id := by
    intro s2 hs2
    obtain ⟨q, hq, hq1, _⟩ := hprev s2 hs2
    rw [← hq1]
    exact (hAct q hq).2
  have hfresh : st.next_session_id ∉ userList st u := by
    intro hmem
    exact absurd (hprevlt _ hmem) (by omega)
  refine ⟨keys_aset_nodup hA, keys_aset_nodup hB, ?_, ?_, ?_⟩
  · intro p hp
    rcases (mem_aset_iff hB).mp hp with hpeq | ⟨hpmem, _⟩
    · rw [hpeq]
      constructor
      · simp
      · simp only [List.nodup_append, List.nodup_cons, List.nodup_nil]
        refine ⟨hprevnd, by simp, ?_⟩
        intro a ha hb
        simp only [List.mem_singleton] at hb
        rw [hb] at ha
        exact hfresh ha
    · exact hNE p hpmem
  · intro p hp s2 hs2
    rcases (mem_aset_iff hB).mp hp with hpeq | ⟨hpmem, hpne⟩
    · subst hpeq
      rcases List.mem_append.mp hs2 with hin | hnew
      · obtain ⟨q, hq, hq1, hq2⟩ := hprev s2 hin
        have hqne : q.1 ≠ st.next_session_id := by
          have := (hAct q hq).2
          omega
        exact ⟨q, (mem_aset_iff hA).mpr (Or.inr ⟨hq, hqne⟩), hq1, hq2⟩
      · simp only [List.mem_singleton] at hnew
        refine ⟨(st.next_session_id, mkSessionInfo cfg st.next_session_id w u now),
          mem_aset_self _ _ _, hnew.symm ▸ rfl, rfl⟩
    · obtain ⟨q, hq, hq1, hq2⟩ := hIdx p hpmem s2 hs2
      have hqne : q.1 ≠ st.next_session_id := by
        have := (hAct q hq).2
        omega
      exact ⟨q, (mem_aset_iff hA).mpr (Or.inr ⟨hq, hqne⟩), hq1, hq2⟩
  · intro q hq
    rcases (mem_aset_iff hA).mp hq with hqeq | ⟨hqmem, hqne⟩
    · subst hqeq
      constructor
      · show st.next_session_id ∈
          (alookup (mkSessionInfo cfg st.next_session_id w u now).username
            (aset u (userList st u ++ [st.next_session_id]) st.sessions_by_user)).getD []
        have huname : (mkSessionInfo cfg st.next_session_id w u now).username = u := rfl
        rw [huname, alookup_aset_self]
        simp
      · simp
    · obtain ⟨hq_ul, hq_bound⟩ := hAct q hqmem
      refine ⟨?_, show q.1 < st.next_session_id + 1 by omega⟩
      by_cases hu : q.2.username = u
      · show q.1 ∈
          (alookup q.2.username
            (aset u (userList st u ++ [st.next_session_id]) st.sessions_by_user)).getD []
        rw [hu, alookup_aset_self]
        simp only [Option.getD_some]
        refine List.mem_append.mpr (Or.inl ?_)
        rw [← hu]
        exact hq_ul
      · show q.1 ∈
          (alookup q.2.username
            (aset u (userList st u ++ [st.next_session_id]) st.sessions_by_user)).getD []
        rw [alookup_aset_ne _ hu]
        exact hq_ul

theorem StoreInv.login {st : ServerState} (h : StoreInv st) (cfg : Config) (u : String)
    (w : TaigaClientWrapper) (now : Nat) :
    StoreInv (login_store cfg u w now st).2.2 := by
  rw [login_store_decomp]
  exact StoreInv.insert (StoreInv.st1 h cfg u) cfg u w now

theorem StoreInv.validate {st : ServerState} (h : StoreInv st) (sid : Nat) (now : Nat) :
    StoreInv (get_authenticated_client sid now st).2 := by
  unfold get_authenticated_client
  cases hlk : alookup sid st.active_sessions with
  | none => exact h
  | some info =>
      show StoreInv
        ((if info.is_expired now then
            (Except.error AuthFailure.expired, cleanup_session sid st)
          else if !info.client.is_authenticated then
            (Except.error AuthFailure.auth_lost, cleanup_session sid st)
          else
            (Except.ok info.client,
              { st with
                active_sessions :=
                  aset sid (info.update_last_accessed now) st.active_sessions })).2)
      by_cases hexp : info.is_expired now = true
      · rw [if_pos hexp]
        exact StoreInv.cleanup sid h
      · rw [if_neg hexp]
        by_cases hauth : (!info.client.is_authenticated) = true
        · rw [if_pos hauth]
          exact StoreInv.cleanup sid h
        · rw [if_neg hauth]
          obtain ⟨hA, hB, hNE, hIdx, hAct⟩ := h
          have hmem : (sid, info) ∈ st.active_sessions := mem_of_alookup hlk
          have hkey : ∀ qk qv, (qk, qv) ∈ st.active_sessions → qk = sid → qv = info := by
            intro qk qv hq hq1
            subst hq1
            have h2 := alookup_of_mem hA hq
            rw [hlk] at h2
            injection h2 with h3
            exact h3.symm
          refine ⟨keys_aset_nodup hA, hB, hNE, ?_, ?_⟩
          · intro p hp s2 hs2
            obtain ⟨q, hq, hq1, hq2⟩ := hIdx p hp s2 hs2
            by_cases hqs : q.1 = sid
            · cases q with
              | mk qk qv =>
                  have h4 := hkey qk qv hq hqs
                  refine ⟨(sid, info.update_last_accessed now), mem_aset_self _ _ _, ?_, ?_⟩
                  · rw [← hq1]
                    exact hqs.symm
                  · rw [← h4]
                    exact hq2
            · exact ⟨q, (mem_aset_iff hA).mpr (Or.inr ⟨hq, hqs⟩), hq1, hq2⟩
          · intro q hq
            rcases (mem_aset_iff hA).mp hq with hqeq | ⟨hqmem, _⟩
            · subst hqeq
              have h5 := hAct (sid, info) hmem
              exact h5
            · exact hAct q hqmem

theorem StoreInv.logout_preserved {st : ServerState} (h : StoreInv st) (sid : Nat) :
    StoreInv (logout sid st).2 := by
  unfold logout
  cases alookup sid st.active_sessions with
  | none => exact h
  | some info => exact StoreInv.cleanup sid h

theorem StoreInv.status {st : ServerState} (h : StoreInv st) (sid : Nat) (now : Nat)
    (me_result : Except String (Option String)) :
    StoreInv (session_status sid now me_result st).2 := by
  unfold session_status
  split
  · exact h
  · split
    · exact StoreInv.cleanup sid h
    · split
      · exact StoreInv.cleanup sid h
      · split
        · exact h
        · exact StoreInv.cleanup sid h

theorem foldl_cleanup_inv : ∀ (ids : List Nat) (st : ServerState), StoreInv st →
    StoreInv (ids.foldl (fun s i => cleanup_session i s) st) := by
  intro ids
  induction ids with
  | nil =>
      intro st h
      exact h
  | cons i rest ih =>
      intro st h
      simp only [List.foldl_cons]
      exact ih _ (StoreInv.cleanup i h)

theorem StoreInv.reaper {st : ServerState} (h : StoreInv st) (now : Nat) :
    StoreInv (cleanup_expired_sessions_sync now st).2 := by
  unfold cleanup_expired_sessions_sync
  exact foldl_cleanup_inv _ st h

/-! Evaluation lemmas for the three-stage validation and for status. -/

theorem get_authenticated_client_not_found {st : ServerState} {sid now : Nat}
    (hlk : alookup sid st.active_sessions = none) :
    get_authenticated_client sid now st =
      (Except.error AuthFailure.invalid_session, st) := by
  unfold get_authenticated_client
  rw [hlk]

theorem get_authenticated_client_expired {st : ServerState} {sid now : Nat}
    {info : SessionInfo} (hlk : alookup sid st.active_sessions = some info)
    (hexp : info.is_expired now = true) :
    get_authenticated_client sid now st =
      (Except.error AuthFailure.expired, cleanup_session sid st) := by
  unfold get_authenticated_client
  rw [hlk]
  show (if info.is_expired now then
          (Except.error AuthFailure.expired, cleanup_session sid st)
        else if !info.client.is_authenticated then
          (Except.error AuthFailure.auth_lost, cleanup_session sid st)
        else
          (Except.ok info.client,
            { st with
              active_sessions :=
                aset sid (info.update_last_accessed now) st.active_sessions })) = _
  rw [if_pos hexp]

theorem get_authenticated_client_auth_lost {st : ServerState} {sid now : Nat}
    {info : SessionInfo} (hlk : alookup sid st.active_sessions = some info)
    (hexp : info.is_expired now = false) (hauth : info.client.is_authenticated = false) :
    get_authenticated_client sid now st =
      (Except.error AuthFailure.auth_lost, cleanup_session sid st) := by
  unfold get_authenticated_client
  rw [hlk]
  show (if info.is_expired now then
          (Except.error AuthFailure.expired, cleanup_session sid st)
        else if !info.client.is_authenticated then
          (Except.error AuthFailure.auth_lost, cleanup_session sid st)
        else
          (Except.ok info.client,
            { st with
              active_sessions :=
                aset sid (info.update_last_accessed now) st.active_sessions })) = _
  rw [if_neg (by rw [hexp]; exact Bool.false_ne_true)]
  rw [if_pos (by rw [hauth]; rfl)]

theorem get_authenticated_client_ok {st : ServerState} {sid now : Nat}
    {info : SessionInfo} (hlk : alookup sid st.active_sessions = some info)
    (hexp : info.is_expired now = false) (hauth : info.client.is_authenticated = true) :
    get_authenticated_client sid now st =
      (Except.ok info.client,
        { st with
          active_sessions :=
            aset sid (info.update_last_accessed now) st.active_sessions }) := by
  unfold get_authenticated_client
  rw [hlk]
  show (if info.is_expired now then
          (Except.error AuthFailure.expired, cleanup_session sid st)
        else if !info.client.is_authenticated then
          (Except.error AuthFailure.auth_lost, cleanup_session sid st)
        else
          (Except.ok info.client,
            { st with
              active_sessions :=
                aset sid (info.update_last_accessed now) st.active_sessions })) = _
  rw [if_neg (by rw [hexp]; exact Bool.false_ne_true)]
  rw [if_neg (by rw [hauth]; simp)]

/-- After `_cleanup_session(sid)` on a consistent state, `sid` is gone
from the store and from every user list. -/
theorem cleanup_session_absent {st : ServerState} (sid : Nat) (hinv : StoreInv st) :
    alookup sid (cleanup_session sid st).active_sessions = none ∧
    ∀ p ∈ (cleanup_session sid st).sessions_by_user, sid ∉ p.2 := by
  obtain ⟨hA, hB, hNE, hIdx, hAct⟩ := hinv
  cases hlk : alookup sid st.active_sessions with
  | none =>
      rw [cleanup_session_none hlk]
      refine ⟨hlk, ?_⟩
      intro p hp hsid
      obtain ⟨q, hq, hq1, _⟩ := hIdx p hp sid hsid
      cases q with
      | mk qk qv =>
          have h2 := alookup_of_mem hA hq
          rw [show qk = sid from hq1] at h2
          rw [h2] at hlk
          cases hlk
  | some info =>
      have hmem : (sid, info) ∈ st.active_sessions := mem_of_alookup hlk
      have hsid_ul : sid ∈ userList st info.username := (hAct (sid, info) hmem).1
      have hkey : ∀ qk qv, (qk, qv) ∈ st.active_sessions → qk = sid → qv = info := by
        intro qk qv hq hq1
        subst hq1
        have h2 := alookup_of_mem hA hq
        rw [hlk] at h2
        injection h2 with h3
        exact h3.symm
      cases hul : alookup info.username st.sessions_by_user with
      | none =>
          exfalso
          unfold userList at hsid_ul
          rw [hul] at hsid_ul
          simp at hsid_ul
      | some l =>
          have hlnd : l.Nodup := (hNE _ (mem_of_alookup hul)).2
          rw [cleanup_session_some hlk hul]
          refine ⟨alookup_aerase_self hA, ?_⟩
          intro p hp hsid
          have hfromIdx : p ∈ st.sessions_by_user → p.1 ≠ info.username → False := by
            intro hpmem hpne
            obtain ⟨q, hq, hq1, hq2⟩ := hIdx p hpmem sid hsid
            cases q with
            | mk qk qv =>
                have h4 := hkey qk qv hq hq1
                rw [h4] at hq2
                exact hpne hq2.symm
          by_cases hemp : (l.erase sid).isEmpty = true
          · rw [if_pos hemp] at hp
            obtain ⟨hpmem, hpne⟩ := (mem_aerase_iff hB).mp hp
            exact hfromIdx hpmem hpne
          · rw [if_neg hemp] at hp
            rcases (mem_aset_iff hB).mp hp with hpeq | ⟨hpmem, hpne⟩
            · rw [hpeq] at hsid
              exact hlnd.not_mem_erase hsid
            · exact hfromIdx hpmem hpne

/-- C1: for a session S present in the store, once `now ≥ S.expires_at`
a call to `_get_authenticated_client` with S's identifier fails with
the "expired" authorization error, and afterwards S's identifier is
absent from `active_sessions` and from every list of the
`sessions_by_user` index. -/
theorem C1_expired_validate_fails_and_purges (st : ServerState) (sid : Nat)
    (info : SessionInfo) (now : Nat) (hinv : StoreInv st)
    (hlk : alookup sid st.active_sessions = some info)
    (hexp : info.expires_at ≤ now) :
    (get_authenticated_client sid now st).1 = Except.error AuthFailure.expired ∧
    alookup sid (get_authenticated_client sid now st).2.active_sessions = none ∧
    ∀ p ∈ (get_authenticated_client sid now st).2.sessions_by_user, sid ∉ p.2 := by
  have hexpb : info.is_expired now = true := by
    unfold SessionInfo.is_expired
    exact decide_eq_true hexp
  rw [get_authenticated_client_expired hlk hexpb]
  obtain ⟨h1, h2⟩ := cleanup_session_absent sid hinv
  exact ⟨rfl, h1, h2⟩

theorem C1_witness :
    (get_authenticated_client 0 25
      ⟨[(0, ⟨0, ⟨1, true⟩, "bob", 10, 10, 20⟩)], [("bob", [0])], 1⟩).1 =
      Except.error AuthFailure.expired ∧
    alookup 0 (get_authenticated_client 0 25
      ⟨[(0, ⟨0, ⟨1, true⟩, "bob", 10, 10, 20⟩)], [("bob", [0])], 1⟩).2.active_sessions =
      none :=
  ⟨(C1_expired_validate_fails_and_purges
      ⟨[(0, ⟨0, ⟨1, true⟩, "bob", 10, 10, 20⟩)], [("bob", [0])], 1⟩ 0
      ⟨0, ⟨1, true⟩, "bob", 10, 10, 20⟩ 25 (by decide) (by decide) (by decide)).1,
   (C1_expired_validate_fails_and_purges
      ⟨[(0, ⟨0, ⟨1, true⟩, "bob", 10, 10, 20⟩)], [("bob", [0])], 1⟩ 0
      ⟨0, ⟨1, true⟩, "bob", 10, 10, 20⟩ 25 (by decide) (by decide) (by decide)).2.1⟩

/-- C2: on any state satisfying the store invariant, the session store
and the user index are mutually consistent, and every operation
(session creation in login, logout, validation with its purge,
session_status with its purge, and a background reaper sweep, as well
as the shared `_cleanup_session` helper) preserves the invariant and
hence leaves the two maps mutually consistent with no username mapped
to an empty list. -/
theorem C2_store_index_consistency (st : ServerState) (h : StoreInv st) :
    Consistent st ∧
    (∀ sid, StoreInv (cleanup_session sid st) ∧ Consistent (cleanup_session sid st)) ∧
    (∀ cfg u w now, StoreInv (login_store cfg u w now st).2.2 ∧
        Consistent (login_store cfg u w now st).2.2) ∧
    (∀ sid now, StoreInv (get_authenticated_client sid now st).2 ∧
        Consistent (get_authenticated_client sid now st).2) ∧
    (∀ sid, StoreInv (logout sid st).2 ∧ Consistent (logout sid st).2) ∧
    (∀ sid now me, StoreInv (session_status sid now me st).2 ∧
        Consistent (session_status sid now me st).2) ∧
    (∀ now, StoreInv (cleanup_expired_sessions_sync now st).2 ∧
        Consistent (cleanup_expired_sessions_sync now st).2) := by
  refine ⟨h.consistent, ?_, ?_, ?_, ?_, ?_, ?_⟩
  · intro sid
    exact ⟨StoreInv.cleanup sid h, (StoreInv.cleanup sid h).consistent⟩
  · intro cfg u w now
    exact ⟨StoreInv.login h cfg u w now, (StoreInv.login h cfg u w now).consistent⟩
  · intro sid now
    exact ⟨StoreInv.validate h sid now, (StoreInv.validate h sid now).consistent⟩
  · intro sid
    exact ⟨StoreInv.logout_preserved h sid, (StoreInv.logout_preserved h sid).consistent⟩
  · intro sid now me
    exact ⟨StoreInv.status h sid now me, (StoreInv.status h sid now me).consistent⟩
  · intro now
    exact ⟨StoreInv.reaper h now, (StoreInv.reaper h now).consistent⟩

theorem C2_witness :
    Consistent ⟨[(0, ⟨0, ⟨1, true⟩, "bob", 10, 10, 20⟩)], [("bob", [0])], 1⟩ :=
  (C2_store_index_consistency
    ⟨[(0, ⟨0, ⟨1, true⟩, "bob", 10, 10, 20⟩)], [("bob", [0])], 1⟩ (by decide)).1

/-! Evaluation lemmas for session_status. -/

theorem session_status_not_found {st : ServerState} {sid now : Nat}
    {me : Except String (Option String)}
    (hlk : alookup sid st.active_sessions = none) :
    session_status sid now me st =
      ({ status := "inactive", resp_session_id := sid, reason := some "not_found" }, st) := by
  unfold session_status
  rw [hlk]

theorem session_status_expired {st : ServerState} {sid now : Nat}
    {me : Except String (Option String)} {info : SessionInfo}
    (hlk : alookup sid st.active_sessions = some info)
    (hexp : info.is_expired now = true) :
    session_status sid now me st =
      ({ status := "inactive", resp_session_id := sid, reason := some "expired",
         username := some info.username }, cleanup_session sid st) := by
  unfold session_status
  rw [hlk]
  show ((if info.is_expired now then
          ({ status := "inactive", resp_session_id := sid, reason := some "expired",
             username := some info.username }, cleanup_session sid st)
        else if !info.client.is_authenticated then
          ({ status := "inactive", resp_session_id := sid, reason := some "token_invalid",
             username := some info.username }, cleanup_session sid st)
        else
          match me with
          | Except.ok me_username =>
              ({ status := "active", resp_session_id := sid,
                 username := some (me_username.getD info.username),
                 created_at := some info.created_at,
                 last_accessed := some info.last_accessed,
                 expires_at := some info.expires_at,
                 time_until_expiry_seconds := some (info.expires_at - now) }, st)
          | Except.error e =>
              ({ status := "error", resp_session_id := sid,
                 reason := some ("api_error: " ++ e) }, cleanup_session sid st)) :
      StatusResponse × ServerState) = _
  rw [if_pos hexp]

theorem session_status_token_invalid {st : ServerState} {sid now : Nat}
    {me : Except String (Option String)} {info : SessionInfo}
    (hlk : alookup sid st.active_sessions = some info)
    (hexp : info.is_expired now = false)
    (hauth : info.client.is_authenticated = false) :
    session_status sid now me st =
      ({ status := "inactive", resp_session_id := sid, reason := some "token_invalid",
         username := some info.username }, cleanup_session sid st) := by
  unfold session_status
  rw [hlk]
  show ((if info.is_expired now then
          ({ status := "inactive", resp_session_id := sid, reason := some "expired",
             username := some info.username }, cleanup_session sid st)
        else if !info.client.is_authenticated then
          ({ status := "inactive", resp_session_id := sid, reason := some "token_invalid",
             username := some info.username }, cleanup_session sid st)
        else
          match me with
          | Except.ok me_username =>
              ({ status := "active", resp_session_id := sid,
                 username := some (me_username.getD info.username),
                 created_at := some info.created_at,
                 last_accessed := some info.last_accessed,
                 expires_at := some info.expires_at,
                 time_until_expiry_seconds := some (info.expires_at - now) }, st)
          | Except.error e =>
              ({ status := "error", resp_session_id := sid,
                 reason := some ("api_error: " ++ e) }, cleanup_session sid st)) :
      StatusResponse × ServerState) = _
  rw [if_neg (by rw [hexp]; exact Bool.false_ne_true)]
  rw [if_pos (by rw [hauth]; rfl)]

theorem session_status_active {st : ServerState} {sid now : Nat}
    {me_username : Option String} {info : SessionInfo}
    (hlk : alookup sid st.active_sessions = some info)
    (hexp : info.is_expired now = false)
    (hauth : info.client.is_authenticated = true) :
    session_status sid now (Except.ok me_username) st =
      ({ status := "active", resp_session_id := sid,
         username := some (me_username.getD info.username),
         created_at := some info.created_at,
         last_accessed := some info.last_accessed,
         expires_at := some info.expires_at,
         time_until_expiry_seconds := some (info.expires_at - now) }, st) := by
  unfold session_status
  rw [hlk]
  show ((if info.is_expired now then
          ({ status := "inactive", resp_session_id := sid, reason := some "expired",
             username := some info.username }, cleanup_session sid st)
        else if !info.client.is_authenticated then
          ({ status := "inactive", resp_session_id := sid, reason := some "token_invalid",
             username := some info.username }, cleanup_session sid st)
        else
          match (Except.ok me_username : Except String (Option String)) with
          | Except.ok me_username =>
              ({ status := "active", resp_session_id := sid,
                 username := some (me_username.getD info.username),
                 created_at := some info.created_at,
                 last_accessed := some info.last_accessed,
                 expires_at := some info.expires_at,
                 time_until_expiry_seconds := some (info.expires_at - now) }, st)
          | Except.error e =>
              ({ status := "error", resp_session_id := sid,
                 reason := some ("api_error: " ++ e) }, cleanup_session sid st)) :
      StatusResponse × ServerState) = _
  rw [if_neg (by rw [hexp]; exact Bool.false_ne_true)]
  rw [if_neg (by rw [hauth]; simp)]

theorem session_status_api_error {st : ServerState} {sid now : Nat}
    {e : String} {info : SessionInfo}
    (hlk : alookup sid st.active_sessions = some info)
    (hexp : info.is_expired now = false)
    (hauth : info.client.is_authenticated = true) :
    session_status sid now (Except.error e) st =
      ({ status := "error", resp_session_id := sid,
         reason := some ("api_error: " ++ e) }, cleanup_session sid st) := by
  unfold session_status
  rw [hlk]
  show ((if info.is_expired now then
          ({ status := "inactive", resp_session_id := sid, reason := some "expired",
             username := some info.username }, cleanup_session sid st)
        else if !info.client.is_authenticated then
          ({ status := "inactive", resp_session_id := sid, reason := some "token_invalid",
             username := some info.username }, cleanup_session sid st)
        else
          match (Except.error e : Except String (Option String)) with
          | Except.ok me_username =>
              ({ status := "active", resp_session_id := sid,
                 username := some (me_username.getD info.username),
                 created_at := some info.created_at,
                 last_accessed := some info.last_accessed,
                 expires_at := some info.expires_at,
                 time_until_expiry_seconds := some (info.expires_at - now) }, st)
          | Except.error e2 =>
              ({ status := "error", resp_session_id := sid,
                 reason := some ("api_error: " ++ e2) }, cleanup_session sid st)) :
      StatusResponse × ServerState) = _
  rw [if_neg (by rw [hexp]; exact Bool.false_ne_true)]
  rw [if_neg (by rw [hauth]; simp)]

/-- C7: `expires_at` is fixed at construction to `created_at` plus the
configured TTL (non-positive SESSION_EXPIRY falls back to 28800), and a
successful validation returns the stored client and rewrites the record
to differ only in `last_accessed`. -/
theorem C7_absolute_ttl_and_validate_frame
    (cfg : Config) (sid2 : Nat) (w : TaigaClientWrapper) (u : String) (t : Nat)
    (st : ServerState) (sid now : Nat) (info : SessionInfo)
    (hlk : alookup sid st.active_sessions = some info)
    (hexp : info.is_expired now = false)
    (hauth : info.client.is_authenticated = true) :
    (mkSessionInfo cfg sid2 w u t).created_at = t ∧
    (mkSessionInfo cfg sid2 w u t).expires_at =
      t + (if cfg.session_expiry ≤ 0 then 28800 else cfg.session_expiry.toNat) ∧
    (get_authenticated_client sid now st).1 = Except.ok info.client ∧
    alookup sid (get_authenticated_client sid now st).2.active_sessions =
      some { info with last_accessed := now } := by
  refine ⟨rfl, rfl, ?_, ?_⟩
  · rw [get_authenticated_client_ok hlk hexp hauth]
  · rw [get_authenticated_client_ok hlk hexp hauth]
    show alookup sid (aset sid (info.update_last_accessed now) st.active_sessions) =
      some { info with last_accessed := now }
    rw [alookup_aset_self]
    rfl

theorem C7_witness :
    alookup 5 (get_authenticated_client 5 100
        ⟨[(5, ⟨5, ⟨1, true⟩, "bob", 0, 0, 500⟩)], [("bob", [5])], 6⟩).2.active_sessions =
      some ⟨5, ⟨1, true⟩, "bob", 0, 100, 500⟩ :=
  (C7_absolute_ttl_and_validate_frame ⟨0, 5, 5, 60, 900⟩ 1 ⟨1, true⟩ "alice" 0
    ⟨[(5, ⟨5, ⟨1, true⟩, "bob", 0, 0, 500⟩)], [("bob", [5])], 6⟩ 5 100
    ⟨5, ⟨1, true⟩, "bob", 0, 0, 500⟩ (by decide) (by decide) (by decide)).2.2.2

/-- C8: `session_status` returns a response in every case; an unknown
identifier reports inactive/not_found and leaves the state untouched;
an expired or unauthenticated session is purged from the store and
reported inactive with the corresponding reason, instead of raising. -/
theorem C8_status_reports_and_purges (st : ServerState) (sid now : Nat)
    (me : Except String (Option String)) (hinv : StoreInv st) :
    (alookup sid st.active_sessions = none →
      session_status sid now me st =
        ({ status := "inactive", resp_session_id := sid,
           reason := some "not_found" }, st)) ∧
    (∀ info, alookup sid st.active_sessions = some info → info.is_expired now = true →
      (session_status sid now me st).1 =
        { status := "inactive", resp_session_id := sid, reason := some "expired",
          username := some info.username } ∧
      alookup sid (session_status sid now me st).2.active_sessions = none) ∧
    (∀ info, alookup sid st.active_sessions = some info → info.is_expired now = false →
      info.client.is_authenticated = false →
      (session_status sid now me st).1 =
        { status := "inactive", resp_session_id := sid, reason := some "token_invalid",
          username := some info.username } ∧
      alookup sid (session_status sid now me st).2.active_sessions = none) := by
  refine ⟨?_, ?_, ?_⟩
  · intro hlk
    exact session_status_not_found hlk
  · intro info hlk hexp
    rw [session_status_expired hlk hexp]
    exact ⟨rfl, (cleanup_session_absent sid hinv).1⟩
  · intro info hlk hexp hauth
    rw [session_status_token_invalid hlk hexp hauth]
    exact ⟨rfl, (cleanup_session_absent sid hinv).1⟩

theorem C8_witness :
    session_status 9 25 (Except.ok (some "bob"))
        ⟨[(0, ⟨0, ⟨1, true⟩, "bob", 10, 10, 20⟩)], [("bob", [0])], 1⟩ =
      ({ status := "inactive", resp_session_id := 9, reason := some "not_found" },
        ⟨[(0, ⟨0, ⟨1, true⟩, "bob", 10, 10, 20⟩)], [("bob", [0])], 1⟩) :=
  (C8_status_reports_and_purges
    ⟨[(0, ⟨0, ⟨1, true⟩, "bob", 10, 10, 20⟩)], [("bob", [0])], 1⟩ 9 25
    (Except.ok (some "bob")) (by decide)).1 (by decide)

/-- C10: a `session_status` call whose response says "active" leaves
the whole session state unchanged — in particular it does not refresh
`last_accessed`, unlike a successful validation. -/
theorem C10_active_status_no_mutation (st : ServerState) (sid now : Nat)
    (me : Except String (Option String)) (resp : StatusResponse) (st2 : ServerState)
    (h : session_status sid now me st = (resp, st2)) (hact : resp.status = "active") :
    st2 = st := by
  cases hlk : alookup sid st.active_sessions with
  | none =>
      rw [session_status_not_found hlk] at h
      injection h with h1 h2
      exact h2.symm
  | some info =>
      cases hexpb : info.is_expired now with
      | true =>
          rw [session_status_expired hlk hexpb] at h
          injection h with h1 h2
          rw [← h1] at hact
          have hact2 : ("inactive" : String) = "active" := hact
          exact absurd hact2 (by decide)
      | false =>
          cases hauthb : info.client.is_authenticated with
          | false =>
              rw [session_status_token_invalid hlk hexpb hauthb] at h
              injection h with h1 h2
              rw [← h1] at hact
              have hact2 : ("inactive" : String) = "active" := hact
              exact absurd hact2 (by decide)
          | true =>
              cases me with
              | ok mu =>
                  rw [session_status_active hlk hexpb hauthb] at h
                  injection h with h1 h2
                  exact h2.symm
              | error e =>
                  rw [session_status_api_error hlk hexpb hauthb] at h
                  injection h with h1 h2
                  rw [← h1] at hact
                  have hact2 : ("error" : String) = "active" := hact
                  exact absurd hact2 (by decide)

theorem C10_witness :
    (session_status 5 100 (Except.ok (some "bob"))
        ⟨[(5, ⟨5, ⟨1, true⟩, "bob", 0, 0, 500⟩)], [("bob", [5])], 6⟩).2 =
      ⟨[(5, ⟨5, ⟨1, true⟩, "bob", 0, 0, 500⟩)], [("bob", [5])], 6⟩ :=
  C10_active_status_no_mutation
    ⟨[(5, ⟨5, ⟨1, true⟩, "bob", 0, 0, 500⟩)], [("bob", [5])], 6⟩ 5 100
    (Except.ok (some "bob"))
    (session_status 5 100 (Except.ok (some "bob"))
        ⟨[(5, ⟨5, ⟨1, true⟩, "bob", 0, 0, 500⟩)], [("bob", [5])], 6⟩).1
    (session_status 5 100 (Except.ok (some "bob"))
        ⟨[(5, ⟨5, ⟨1, true⟩, "bob", 0, 0, 500⟩)], [("bob", [5])], 6⟩).2
    (by decide) (by decide)

theorem sessionTTL_pos (cfg : Config) : 0 < sessionTTL cfg := by
  unfold sessionTTL
  split
  · omega
  · omega

theorem mkSessionInfo_not_expired (cfg : Config) (sid : Nat) (w : TaigaClientWrapper)
    (u : String) (now : Nat) : (mkSessionInfo cfg sid w u now).is_expired now = false := by
  unfold SessionInfo.is_expired
  apply decide_eq_false
  show ¬ (mkSessionInfo cfg sid w u now).expires_at ≤ now
  have h1 : (mkSessionInfo cfg sid w u now).expires_at = now + sessionTTL cfg := rfl
  rw [h1]
  have h2 := sessionTTL_pos cfg
  omega

theorem login_store_lookup (cfg : Config) (u : String) (w : TaigaClientWrapper)
    (now : Nat) (st : ServerState) :
    alookup (login_store cfg u w now st).1
        (login_store cfg u w now st).2.2.active_sessions =
      some (mkSessionInfo cfg (login_store cfg u w now st).1 w u now) := by
  rw [login_store_decomp]
  show alookup (login_store_st1 cfg u st).next_session_id
      (aset (login_store_st1 cfg u st).next_session_id
        (mkSessionInfo cfg (login_store_st1 cfg u st).next_session_id w u now)
        (login_store_st1 cfg u st).active_sessions) =
    some (mkSessionInfo cfg (login_store_st1 cfg u st).next_session_id w u now)
  exact alookup_aset_self _ _ _

theorem login_success_eq {cfg : Config} {u : String} {now : Nat}
    {sys : SystemState} {rate1 : RateData} (w : TaigaClientWrapper)
    (hc : check_rate_limit cfg u now sys.rate_limit_data = (RateCheckResult.ok, rate1)) :
    login cfg u w true now sys =
      (LoginOutcome.success (login_store cfg u w now sys.sessions).1
          (login_store cfg u w now sys.sessions).2.1,
        { sessions := (login_store cfg u w now sys.sessions).2.2,
          rate_limit_data := track_login_attempt u true now rate1 }) := by
  unfold login
  rw [hc]
  exact rfl

theorem login_not_ok_eq {cfg : Config} {u : String} {now : Nat}
    {sys : SystemState} {r : RateCheckResult} {rate1 : RateData}
    (w : TaigaClientWrapper) (ls : Bool)
    (hc : check_rate_limit cfg u now sys.rate_limit_data = (r, rate1))
    (hr : r ≠ RateCheckResult.ok) :
    login cfg u w ls now sys =
      (LoginOutcome.rate_limited r,
        { sessions := sys.sessions, rate_limit_data := rate1 }) := by
  unfold login
  rw [hc]
  cases r with
  | ok => exact absurd rfl hr
  | locked_out n => rfl
  | threshold_exceeded => rfl

/-- C9: a successful login followed immediately by validation of the
returned identifier yields exactly the client wrapper stored at
creation, and the stored record afterwards has
`created_at ≤ last_accessed`. -/
theorem C9_create_validate_roundtrip (cfg : Config) (sys : SystemState) (u : String)
    (w : TaigaClientWrapper) (now : Nat) (sid : Nat) (ev : Option Nat) (sys2 : SystemState)
    (hauth : w.is_authenticated = true)
    (hlogin : login cfg u w true now sys = (LoginOutcome.success sid ev, sys2)) :
    (get_authenticated_client sid now sys2.sessions).1 = Except.ok w ∧
    ∃ info, alookup sid
        (get_authenticated_client sid now sys2.sessions).2.active_sessions = some info ∧
      info.client = w ∧ info.created_at ≤ info.last_accessed := by
  cases hc : check_rate_limit cfg u now sys.rate_limit_data with
  | mk r rate1 =>
      cases r with
      | locked_out n =>
          rw [login_not_ok_eq w true hc (by simp)] at hlogin
          injection hlogin with ho hs
          cases ho
      | threshold_exceeded =>
          rw [login_not_ok_eq w true hc (by simp)] at hlogin
          injection hlogin with ho hs
          cases ho
      | ok =>
          rw [login_success_eq w hc] at hlogin
          injection hlogin with ho hs
          injection ho with ho1 ho2
          subst ho1
          subst hs
          have hfind := login_store_lookup cfg u w now sys.sessions
          have hexp := mkSessionInfo_not_expired cfg
            (login_store cfg u w now sys.sessions).1 w u now
          have hauth2 : (mkSessionInfo cfg (login_store cfg u w now sys.sessions).1
              w u now).client.is_authenticated = true := hauth
          constructor
          · show (get_authenticated_client (login_store cfg u w now sys.sessions).1 now
              (login_store cfg u w now sys.sessions).2.2).1 = Except.ok w
            rw [get_authenticated_client_ok hfind hexp hauth2]
            rfl
          · show ∃ info, alookup (login_store cfg u w now sys.sessions).1
                (get_authenticated_client (login_store cfg u w now sys.sessions).1 now
                  (login_store cfg u w now sys.sessions).2.2).2.active_sessions =
                  some info ∧ info.client = w ∧ info.created_at ≤ info.last_accessed
            rw [get_authenticated_client_ok hfind hexp hauth2]
            refine ⟨(mkSessionInfo cfg (login_store cfg u w now sys.sessions).1
                w u now).update_last_accessed now, ?_, rfl, le_refl now⟩
            show alookup (login_store cfg u w now sys.sessions).1
                (aset (login_store cfg u w now sys.sessions).1
                  ((mkSessionInfo cfg (login_store cfg u w now sys.sessions).1
                    w u now).update_last_accessed now)
                  (login_store cfg u w now sys.sessions).2.2.active_sessions) = _
            exact alookup_aset_self _ _ _

theorem C9_witness :
    (get_authenticated_client 0 100
        (login ⟨28800, 5, 5, 60, 900⟩ "bob" ⟨7, true⟩ true 100
          ⟨⟨[], [], 0⟩, []⟩).2.sessions).1 = Except.ok ⟨7, true⟩ :=
  (C9_create_validate_roundtrip ⟨28800, 5, 5, 60, 900⟩ ⟨⟨[], [], 0⟩, []⟩ "bob"
    ⟨7, true⟩ 100 0 none
    (login ⟨28800, 5, 5, 60, 900⟩ "bob" ⟨7, true⟩ true 100 ⟨⟨[], [], 0⟩, []⟩).2
    (by decide) (by decide)).1

/-! Rate-limiter evaluation lemmas. -/

theorem alookup_head {α β : Type} [DecidableEq α] (k : α) (v : β) (rest : List (α × β)) :
    alookup k ((k, v) :: rest) = some v := by
  simp [alookup]

theorem aset_head {α β : Type} [DecidableEq α] (k : α) (v w : β) (rest : List (α × β)) :
    aset k v ((k, w) :: rest) = (k, v) :: rest := by
  simp [aset]

/-- The window-pruned attempt sequence a check call computes. -/
def pruned_attempts (cfg : Config) (now : Nat) (r : RateLimitInfo) : List LoginAttempt :=
  prune_window (now - cfg.login_rate_window) r.attempts

/-- Number of failed attempts remaining in the window. -/
def failed_count (cfg : Config) (now : Nat) (r : RateLimitInfo) : Nat :=
  ((pruned_attempts cfg now r).filter (fun a => !a.success)).length

theorem check_rate_limit_disabled {cfg : Config} {u : String} {now : Nat} {data : RateData}
    (hM : cfg.login_max_attempts = 0) :
    check_rate_limit cfg u now data = (RateCheckResult.ok, data) := by
  unfold check_rate_limit
  rw [if_pos hM]

theorem check_rate_limit_none {cfg : Config} {u : String} {now : Nat} {data : RateData}
    (hM : cfg.login_max_attempts ≠ 0) (hlk : alookup u data = none) :
    check_rate_limit cfg u now data = (RateCheckResult.ok, data) := by
  unfold check_rate_limit
  rw [if_neg hM, hlk]

theorem check_rate_limit_eval {cfg : Config} {u : String} {now : Nat} {data : RateData}
    {r : RateLimitInfo} (hM : cfg.login_max_attempts ≠ 0)
    (hlk : alookup u data = some r) :
    check_rate_limit cfg u now data =
      if r.is_locked_out now then
        (RateCheckResult.locked_out (r.remaining_lockout_time now), data)
      else if cfg.login_max_attempts ≤ failed_count cfg now r then
        (RateCheckResult.threshold_exceeded,
          aset u { attempts := pruned_attempts cfg now r,
                   locked_until := some (now + cfg.login_lockout_duration) } data)
      else
        (RateCheckResult.ok,
          aset u { attempts := pruned_attempts cfg now r,
                   locked_until := r.locked_until } data) := by
  unfold check_rate_limit
  rw [if_neg hM, hlk]
  exact rfl

theorem track_login_attempt_eq (u : String) (s : Bool) (t : Nat) (data : RateData) :
    track_login_attempt u s t data =
      aset u
        (if s then
          { attempts := (((alookup u data).getD ⟨[], none⟩).attempts ++
              [(⟨t, u, s⟩ : LoginAttempt)]).filter (fun a => a.success), locked_until := none }
        else
          { attempts := ((alookup u data).getD ⟨[], none⟩).attempts ++ [(⟨t, u, s⟩ : LoginAttempt)],
            locked_until := ((alookup u data).getD ⟨[], none⟩).locked_until }) data := by
  unfold track_login_attempt
  cases s with
  | true => rfl
  | false => rfl

theorem mem_of_mem_prune {cutoff : Nat} {a : LoginAttempt} :
    ∀ {l : List LoginAttempt}, a ∈ prune_window cutoff l → a ∈ l := by
  intro l
  induction l with
  | nil => simp [prune_window]
  | cons b rest ih =>
      unfold prune_window
      by_cases hb : b.timestamp < cutoff
      · rw [if_pos hb]
        intro hm
        exact List.mem_cons.mpr (Or.inr (ih hm))
      · rw [if_neg hb]
        exact fun hm => hm

theorem check_ok_of_clean_record {cfg : Config} {u : String} {now : Nat} {data : RateData}
    {r : RateLimitInfo} (hlk : alookup u data = some r)
    (hlock : r.locked_until = none) (hsucc : ∀ a ∈ r.attempts, a.success = true) :
    (check_rate_limit cfg u now data).1 = RateCheckResult.ok := by
  by_cases hM : cfg.login_max_attempts = 0
  · rw [check_rate_limit_disabled hM]
  · rw [check_rate_limit_eval hM hlk]
    have hlo : r.is_locked_out now = false := by
      unfold RateLimitInfo.is_locked_out
      rw [hlock]
    rw [if_neg (by rw [hlo]; exact Bool.false_ne_true)]
    have hfail : failed_count cfg now r = 0 := by
      unfold failed_count
      rw [List.length_eq_zero]
      rw [List.filter_eq_nil_iff]
      intro a ha
      have ha2 := hsucc a (mem_of_mem_prune ha)
      simp [ha2]
    rw [if_neg (by omega)]

/-- C5: after `_track_login_attempt(U, success=True)` the record has no
lockout-expiry and retains only successful attempts, and a following
`_check_rate_limit(U)` succeeds, regardless of prior history. -/
theorem C5_successful_login_forgives (cfg : Config) (data : RateData) (u : String)
    (now now2 : Nat) :
    ∃ r, alookup u (track_login_attempt u true now data) = some r ∧
      r.locked_until = none ∧
      (∀ a ∈ r.attempts, a.success = true) ∧
      (check_rate_limit cfg u now2 (track_login_attempt u true now data)).1 =
        RateCheckResult.ok := by
  have htrack := track_login_attempt_eq u true now data
  have hlk : alookup u (track_login_attempt u true now data) =
      some { attempts := (((alookup u data).getD ⟨[], none⟩).attempts ++
          [(⟨now, u, true⟩ : LoginAttempt)]).filter (fun a => a.success), locked_until := none } := by
    rw [htrack]
    exact alookup_aset_self _ _ _
  refine ⟨_, hlk, rfl, ?_, ?_⟩
  · intro a ha
    exact (List.mem_filter.mp ha).2
  · exact check_ok_of_clean_record hlk rfl (fun a ha => (List.mem_filter.mp ha).2)

/-- C6 as frozen is false on the code: a record whose lockout-expiry
lies strictly in the past can still fail the check, because the
threshold is re-evaluated on the still-present failed attempts and a
fresh lockout is applied (reachable when the lockout duration is
shorter than the rate window). -/
theorem C6_counterexample :
    ((alookup "alice"
        [("alice", (⟨List.replicate 5 ⟨100, "alice", false⟩, some 99⟩ : RateLimitInfo))]).map
      (fun r => r.locked_until)) = some (some 99) ∧
    (99 : Nat) < 100 ∧
    (check_rate_limit ⟨28800, 5, 5, 60, 900⟩ "alice" 100
        [("alice", ⟨List.replicate 5 ⟨100, "alice", false⟩, some 99⟩)]).1 ≠
      RateCheckResult.ok := by decide

/-- C6 amended: for a record whose lockout-expiry is strictly in the
past, check succeeds provided the failed attempts remaining in the
current window are below the configured maximum (or rate limiting is
disabled): the lapsed lockout itself never blocks the call even though
the stale record remains in the map. -/
theorem C6_stale_lockout_lapses (cfg : Config) (u : String) (now : Nat)
    (data : RateData) (r : RateLimitInfo) (lu : Nat)
    (hlk : alookup u data = some r) (hlu : r.locked_until = some lu) (hpast : lu < now)
    (hfew : cfg.login_max_attempts = 0 ∨
      failed_count cfg now r < cfg.login_max_attempts) :
    (check_rate_limit cfg u now data).1 = RateCheckResult.ok := by
  rcases hfew with hM | hcnt
  · rw [check_rate_limit_disabled hM]
  · have hM : cfg.login_max_attempts ≠ 0 := by omega
    rw [check_rate_limit_eval hM hlk]
    have hlo : r.is_locked_out now = false := by
      unfold RateLimitInfo.is_locked_out
      rw [hlu]
      show decide (now < lu) = false
      apply decide_eq_false
      omega
    rw [if_neg (by rw [hlo]; exact Bool.false_ne_true)]
    rw [if_neg (by omega)]

theorem C6_witness :
    (check_rate_limit ⟨28800, 5, 5, 60, 900⟩ "alice" 100
        [("alice", ⟨[⟨2, "alice", false⟩, ⟨3, "alice", false⟩, ⟨4, "alice", false⟩,
          ⟨5, "alice", false⟩, ⟨6, "alice", false⟩], some 99⟩)]).1 = RateCheckResult.ok :=
  C6_stale_lockout_lapses ⟨28800, 5, 5, 60, 900⟩ "alice" 100
    [("alice", ⟨[⟨2, "alice", false⟩, ⟨3, "alice", false⟩, ⟨4, "alice", false⟩,
      ⟨5, "alice", false⟩, ⟨6, "alice", false⟩], some 99⟩)]
    ⟨[⟨2, "alice", false⟩, ⟨3, "alice", false⟩, ⟨4, "alice", false⟩,
      ⟨5, "alice", false⟩, ⟨6, "alice", false⟩], some 99⟩ 99
    (by decide) (by decide) (by decide) (by decide)

/-- One failed login attempt under the documented calling contract:
`_check_rate_limit` first and, when it passes, `_track_login_attempt`
with success=False after the failed credential check — the failure path
of `login`. -/
def failed_cycle (cfg : Config) (u : String) (now : Nat) (data : RateData) :
    RateCheckResult × RateData :=
  match check_rate_limit cfg u now data with
  | (RateCheckResult.ok, d1) => (RateCheckResult.ok, track_login_attempt u false now d1)
  | (r, d1) => (r, d1)

/-- Rate-limit map after k failed attempts at one instant (hence all
inside one sliding window), starting from no record for the user. -/
def iterate_failed (cfg : Config) (u : String) (now : Nat) : Nat → RateData
  | 0 => []
  | n + 1 => (failed_cycle cfg u now (iterate_failed cfg u now n)).2

theorem prune_replicate (cfg : Config) (u : String) (now : Nat) :
    ∀ m : Nat, prune_window (now - cfg.login_rate_window)
      (List.replicate m ⟨now, u, false⟩) = List.replicate m ⟨now, u, false⟩ := by
  intro m
  cases m with
  | zero => rfl
  | succ m2 =>
      rw [List.replicate_succ]
      unfold prune_window
      rw [if_neg (show ¬ (⟨now, u, false⟩ : LoginAttempt).timestamp <
          now - cfg.login_rate_window by
        show ¬ now < now - cfg.login_rate_window
        omega)]

theorem failed_count_replicate (cfg : Config) (u : String) (now : Nat) (k : Nat) :
    failed_count cfg now ⟨List.replicate k ⟨now, u, false⟩, none⟩ = k := by
  show ((prune_window (now - cfg.login_rate_window)
      (List.replicate k ⟨now, u, false⟩)).filter (fun a => !a.success)).length = k
  rw [prune_replicate cfg u now k]
  have hall : ∀ a ∈ List.replicate k (⟨now, u, false⟩ : LoginAttempt),
      (fun a => !a.success) a = true := by
    intro a ha
    have ha2 : a = ⟨now, u, false⟩ := List.eq_of_mem_replicate ha
    subst ha2
    rfl
  rw [List.filter_eq_self.mpr hall, List.length_replicate]

theorem check_at_failed_record (cfg : Config) (u : String) (now : Nat)
    (hM : cfg.login_max_attempts ≠ 0) (k : Nat) :
    check_rate_limit cfg u now [(u, ⟨List.replicate k ⟨now, u, false⟩, none⟩)] =
      if cfg.login_max_attempts ≤ k then
        (RateCheckResult.threshold_exceeded,
          [(u, ⟨List.replicate k ⟨now, u, false⟩,
            some (now + cfg.login_lockout_duration)⟩)])
      else
        (RateCheckResult.ok, [(u, ⟨List.replicate k ⟨now, u, false⟩, none⟩)]) := by
  have hlk : alookup u
      [(u, (⟨List.replicate k ⟨now, u, false⟩, none⟩ : RateLimitInfo))] =
      some ⟨List.replicate k ⟨now, u, false⟩, none⟩ := alookup_head u _ []
  rw [check_rate_limit_eval hM hlk]
  have hlo : (⟨List.replicate k ⟨now, u, false⟩, none⟩ : RateLimitInfo).is_locked_out now
      = false := rfl
  rw [if_neg (by rw [hlo]; exact Bool.false_ne_true)]
  have hpr : pruned_attempts cfg now
      (⟨List.replicate k ⟨now, u, false⟩, none⟩ : RateLimitInfo) =
      List.replicate k ⟨now, u, false⟩ := by
    show prune_window (now - cfg.login_rate_window)
        (List.replicate k ⟨now, u, false⟩) = List.replicate k ⟨now, u, false⟩
    exact prune_replicate cfg u now k
  rw [failed_count_replicate cfg u now k, hpr]
  by_cases hcmp : cfg.login_max_attempts ≤ k
  · rw [if_pos hcmp, if_pos hcmp, aset_head]
  · rw [if_neg hcmp, if_neg hcmp, aset_head]

theorem iterate_failed_formula (cfg : Config) (u : String) (now : Nat)
    (hM : cfg.login_max_attempts ≠ 0) :
    ∀ k, k ≤ cfg.login_max_attempts →
      iterate_failed cfg u now k =
        if k = 0 then []
        else [(u, ⟨List.replicate k ⟨now, u, false⟩, none⟩)] := by
  intro k
  induction k with
  | zero =>
      intro _
      rfl
  | succ k ih =>
      intro hk
      have hdata := ih (by omega)
      show (failed_cycle cfg u now (iterate_failed cfg u now k)).2 = _
      rw [hdata, if_neg (show ¬ (k + 1 = 0) by omega)]
      by_cases hk0 : k = 0
      · subst hk0
        rw [if_pos rfl]
        unfold failed_cycle
        rw [check_rate_limit_none hM (rfl : alookup u [] = none)]
        show track_login_attempt u false now [] =
          [(u, ⟨List.replicate 1 ⟨now, u, false⟩, none⟩)]
        rfl
      · rw [if_neg hk0]
        unfold failed_cycle
        rw [check_at_failed_record cfg u now hM k,
          if_neg (show ¬ cfg.login_max_attempts ≤ k by omega)]
        show track_login_attempt u false now
            [(u, ⟨List.replicate k ⟨now, u, false⟩, none⟩)] =
          [(u, ⟨List.replicate (k + 1) ⟨now, u, false⟩, none⟩)]
        rw [track_login_attempt_eq]
        rw [alookup_head]
        rw [aset_head]
        rw [show List.replicate (k + 1) (⟨now, u, false⟩ : LoginAttempt) =
          List.replicate k ⟨now, u, false⟩ ++ [⟨now, u, false⟩]
          from List.replicate_succ' k _]
        exact rfl

/-- C4: with max_attempts = M > 0 and every attempt at one instant
(hence inside one sliding window): the check preceding each of the
first M failed attempts passes — the M-th failed attempt does not
itself trigger a lockout — while the check preceding the (M+1)-th
attempt fails with the threshold error and sets the lockout-expiry to
now plus the lockout duration; `_track_login_attempt` itself never sets
a lockout-expiry: it clears it on success and leaves it unchanged on
failure. -/
theorem C4_lockout_boundary (cfg : Config) (u : String) (now : Nat)
    (hM : 0 < cfg.login_max_attempts) :
    (∀ k < cfg.login_max_attempts,
        (check_rate_limit cfg u now (iterate_failed cfg u now k)).1 =
          RateCheckResult.ok) ∧
    (check_rate_limit cfg u now
        (iterate_failed cfg u now cfg.login_max_attempts)).1 =
      RateCheckResult.threshold_exceeded ∧
    ((alookup u (check_rate_limit cfg u now
        (iterate_failed cfg u now cfg.login_max_attempts)).2).map
      (fun r => r.locked_until)) = some (some (now + cfg.login_lockout_duration)) ∧
    (∀ (data : RateData) (s : Bool) (t : Nat),
        ((alookup u (track_login_attempt u s t data)).getD ⟨[], none⟩).locked_until =
          if s then none
          else ((alookup u data).getD ⟨[], none⟩).locked_until) := by
  have hM2 : cfg.login_max_attempts ≠ 0 := by omega
  have hfinal : iterate_failed cfg u now cfg.login_max_attempts =
      [(u, ⟨List.replicate cfg.login_max_attempts ⟨now, u, false⟩, none⟩)] := by
    rw [iterate_failed_formula cfg u now hM2 cfg.login_max_attempts (le_refl _)]
    rw [if_neg hM2]
  refine ⟨?_, ?_, ?_, ?_⟩
  · intro k hk
    rw [iterate_failed_formula cfg u now hM2 k (by omega)]
    by_cases hk0 : k = 0
    · rw [if_pos hk0]
      rw [check_rate_limit_none hM2 (rfl : alookup u [] = none)]
    · rw [if_neg hk0]
      rw [check_at_failed_record cfg u now hM2 k,
        if_neg (show ¬ cfg.login_max_attempts ≤ k by omega)]
  · rw [hfinal, check_at_failed_record cfg u now hM2 cfg.login_max_attempts,
      if_pos (le_refl _)]
  · rw [hfinal, check_at_failed_record cfg u now hM2 cfg.login_max_attempts,
      if_pos (le_refl _)]
    show (alookup u [(u, (⟨List.replicate cfg.login_max_attempts ⟨now, u, false⟩,
        some (now + cfg.login_lockout_duration)⟩ : RateLimitInfo))]).map
      (fun r => r.locked_until) = _
    rw [alookup_head]
    rfl
  · intro data s t
    rw [track_login_attempt_eq]
    rw [alookup_aset_self]
    cases s with
    | true => rfl
    | false => rfl

theorem C4_witness :
    0 < (3 : Nat) ∧
    (check_rate_limit ⟨28800, 5, 3, 60, 900⟩ "alice" 100
        (iterate_failed ⟨28800, 5, 3, 60, 900⟩ "alice" 100 2)).1 = RateCheckResult.ok ∧
    (check_rate_limit ⟨28800, 5, 3, 60, 900⟩ "alice" 100
        (iterate_failed ⟨28800, 5, 3, 60, 900⟩ "alice" 100 3)).1 =
      RateCheckResult.threshold_exceeded :=
  ⟨by decide,
   (C4_lockout_boundary ⟨28800, 5, 3, 60, 900⟩ "alice" 100 (by decide)).1 2 (by decide),
   (C4_lockout_boundary ⟨28800, 5, 3, 60, 900⟩ "alice" 100 (by decide)).2.1⟩

/-! Helpers for the concurrent-session eviction claim. -/

theorem aerase_head {α β : Type} [DecidableEq α] (k : α) (v : β) (rest : List (α × β)) :
    aerase k ((k, v) :: rest) = rest := by
  simp [aerase]

theorem range1_concat (s n : Nat) :
    List.range' s (n + 1) = List.range' s n ++ [s + n] := by
  rw [List.range'_concat, Nat.one_mul]

theorem range'_eq_cons (s m : Nat) (hm : 0 < m) :
    List.range' s m = s :: List.range' (s + 1) (m - 1) := by
  cases m with
  | zero => omega
  | succ m2 =>
      rw [List.range'_succ]
      simp

theorem range'_eq_concat (s m : Nat) (hm : 0 < m) :
    List.range' s m = List.range' s (m - 1) ++ [s + (m - 1)] := by
  cases m with
  | zero => omega
  | succ m2 =>
      rw [range1_concat]
      simp

theorem range'_length (s m : Nat) : (List.range' s m).length = m := by simp

theorem not_mem_range'_self_ge {a s m : Nat} (h : s + m ≤ a) : a ∉ List.range' s m := by
  intro hmem
  have h2 := List.mem_range'_1.mp hmem
  omega

theorem keys_of_mapped (g : Nat → SessionInfo) :
    ∀ l : List Nat, (l.map (fun i => (i, g i))).map Prod.fst = l := by
  intro l
  induction l with
  | nil => rfl
  | cons a t ih => simp [ih]

theorem range'_ne_nil_of_pos {s m : Nat} (hm : 0 < m) : List.range' s m ≠ [] := by
  intro he
  have h2 := congrArg List.length he
  simp at h2
  omega

theorem prune_replicate_any (cfg : Config) (u : String) (now : Nat) (b : Bool) :
    ∀ m : Nat, prune_window (now - cfg.login_rate_window)
      (List.replicate m ⟨now, u, b⟩) = List.replicate m ⟨now, u, b⟩ := by
  intro m
  cases m with
  | zero => rfl
  | succ m2 =>
      rw [List.replicate_succ]
      unfold prune_window
      rw [if_neg (show ¬ (⟨now, u, b⟩ : LoginAttempt).timestamp <
          now - cfg.login_rate_window by
        show ¬ now < now - cfg.login_rate_window
        omega)]

theorem check_at_success_record (cfg : Config) (u : String) (now : Nat)
    (hM : cfg.login_max_attempts ≠ 0) (n : Nat) :
    check_rate_limit cfg u now [(u, ⟨List.replicate n ⟨now, u, true⟩, none⟩)] =
      (RateCheckResult.ok, [(u, ⟨List.replicate n ⟨now, u, true⟩, none⟩)]) := by
  rw [check_rate_limit_eval hM (alookup_head u _ [])]
  rw [if_neg (show ¬ (⟨List.replicate n ⟨now, u, true⟩, none⟩ :
      RateLimitInfo).is_locked_out now = true by
    rw [show (⟨List.replicate n ⟨now, u, true⟩, none⟩ :
      RateLimitInfo).is_locked_out now = false from rfl]
    exact Bool.false_ne_true)]
  have hpr : pruned_attempts cfg now
      (⟨List.replicate n ⟨now, u, true⟩, none⟩ : RateLimitInfo) =
      List.replicate n ⟨now, u, true⟩ := by
    show prune_window (now - cfg.login_rate_window)
        (List.replicate n ⟨now, u, true⟩) = _
    exact prune_replicate_any cfg u now true n
  have hfc : failed_count cfg now
      (⟨List.replicate n ⟨now, u, true⟩, none⟩ : RateLimitInfo) = 0 := by
    unfold failed_count
    rw [hpr, List.length_eq_zero, List.filter_eq_nil_iff]
    intro a ha
    have h2 : a = ⟨now, u, true⟩ := List.eq_of_mem_replicate ha
    subst h2
    simp
  rw [if_neg (by rw [hfc]; omega)]
  rw [hpr, aset_head]

theorem track_true_at_success_record (u : String) (now : Nat) (n : Nat) :
    track_login_attempt u true now [(u, ⟨List.replicate n ⟨now, u, true⟩, none⟩)] =
      [(u, ⟨List.replicate (n + 1) ⟨now, u, true⟩, none⟩)] := by
  rw [track_login_attempt_eq, alookup_head, aset_head]
  have hfil : ((List.replicate n (⟨now, u, true⟩ : LoginAttempt) ++
      [(⟨now, u, true⟩ : LoginAttempt)]).filter (fun a => a.success)) =
      List.replicate n ⟨now, u, true⟩ ++ [(⟨now, u, true⟩ : LoginAttempt)] := by
    rw [List.filter_eq_self]
    intro a ha
    have h2 : a = ⟨now, u, true⟩ := by
      rcases List.mem_append.mp ha with h3 | h3
      · exact List.eq_of_mem_replicate h3
      · simpa using h3
    subst h2
    rfl
  show [(u, (⟨(List.replicate n (⟨now, u, true⟩ : LoginAttempt) ++
      [(⟨now, u, true⟩ : LoginAttempt)]).filter (fun a => a.success), none⟩ :
      RateLimitInfo))] = _
  rw [hfil]
  rw [show List.replicate (n + 1) (⟨now, u, true⟩ : LoginAttempt) =
    List.replicate n ⟨now, u, true⟩ ++ [(⟨now, u, true⟩ : LoginAttempt)]
    from List.replicate_succ' n _]

theorem login_store_at_empty (cfg : Config) (u : String) (w : TaigaClientWrapper)
    (now : Nat) :
    login_store cfg u w now ⟨[], [], 0⟩ =
      (0, none, ⟨[(0, mkSessionInfo cfg 0 w u now)], [(u, [0])], 1⟩) := by
  simp only [login_store]
  rw [if_neg (show ¬ (0 < cfg.max_concurrent_sessions ∧
      cfg.max_concurrent_sessions ≤ (userList ⟨[], [], 0⟩ u).length) by
    intro hcon
    have h2 : (userList (⟨[], [], 0⟩ : ServerState) u).length = 0 := rfl
    omega)]
  exact rfl

theorem login_store_no_evict (cfg : Config) (u : String) (w : TaigaClientWrapper)
    (now n : Nat) (hn : n < cfg.max_concurrent_sessions) :
    login_store cfg u w now
      ⟨(List.range' 0 n).map (fun i => (i, mkSessionInfo cfg i w u now)),
       [(u, List.range' 0 n)], n⟩ =
      (n, none,
        ⟨(List.range' 0 (n + 1)).map (fun i => (i, mkSessionInfo cfg i w u now)),
         [(u, List.range' 0 (n + 1))], n + 1⟩) := by
  have hul : userList
      ⟨(List.range' 0 n).map (fun i => (i, mkSessionInfo cfg i w u now)),
       [(u, List.range' 0 n)], n⟩ u = List.range' 0 n := by
    show (alookup u [(u, List.range' 0 n)]).getD [] = _
    rw [alookup_head]
    rfl
  simp only [login_store]
  rw [hul]
  rw [if_neg (show ¬ (0 < cfg.max_concurrent_sessions ∧
      cfg.max_concurrent_sessions ≤ (List.range' 0 n).length) by
    intro hcon
    have h2 : (List.range' 0 n).length = n := range'_length 0 n
    omega)]
  show (n, none,
    (⟨aset n (mkSessionInfo cfg n w u now)
      ((List.range' 0 n).map (fun i => (i, mkSessionInfo cfg i w u now))),
     aset u (userList
        ⟨(List.range' 0 n).map (fun i => (i, mkSessionInfo cfg i w u now)),
         [(u, List.range' 0 n)], n⟩ u ++ [n]) [(u, List.range' 0 n)],
     n + 1⟩ : ServerState)) = _
  rw [hul]
  rw [aset_append_of_not_mem (mkSessionInfo cfg n w u now)
    (show n ∉ ((List.range' 0 n).map
        (fun i => (i, mkSessionInfo cfg i w u now))).map Prod.fst by
      rw [keys_of_mapped]
      exact not_mem_range'_self_ge (by omega))]
  rw [aset_head]
  rw [range1_concat 0 n, Nat.zero_add]
  rw [List.map_append]
  rfl

theorem login_store_evict_general (cfg : Config) (u : String) (w : TaigaClientWrapper)
    (now n o : Nat) (rest : List Nat) (hL : 0 < cfg.max_concurrent_sessions)
    (hlen : (o :: rest).length = cfg.max_concurrent_sessions)
    (hno : n ∉ rest) :
    login_store cfg u w now
      ⟨(o :: rest).map (fun i => (i, mkSessionInfo cfg i w u now)),
       [(u, o :: rest)], n⟩ =
      (n, some o,
        ⟨(rest ++ [n]).map (fun i => (i, mkSessionInfo cfg i w u now)),
         [(u, rest ++ [n])], n + 1⟩) := by
  have hul : userList
      ⟨(o :: rest).map (fun i => (i, mkSessionInfo cfg i w u now)),
       [(u, o :: rest)], n⟩ u = o :: rest := by
    show (alookup u [(u, o :: rest)]).getD [] = _
    rw [alookup_head]
    rfl
  have hclean : cleanup_session o
      ⟨(o :: rest).map (fun i => (i, mkSessionInfo cfg i w u now)),
       [(u, o :: rest)], n⟩ =
      ⟨rest.map (fun i => (i, mkSessionInfo cfg i w u now)),
       if rest.isEmpty then [] else [(u, rest)], n⟩ := by
    have hlk : alookup o ((o :: rest).map (fun i => (i, mkSessionInfo cfg i w u now))) =
        some (mkSessionInfo cfg o w u now) := by
      show alookup o ((o, mkSessionInfo cfg o w u now) ::
        rest.map (fun i => (i, mkSessionInfo cfg i w u now))) = _
      exact alookup_head _ _ _
    have hul2 : alookup (mkSessionInfo cfg o w u now).username [(u, o :: rest)] =
        some (o :: rest) := by
      show alookup u [(u, o :: rest)] = _
      exact alookup_head _ _ _
    rw [cleanup_session_some hlk hul2]
    rw [List.erase_cons_head]
    rw [show aerase o ((o :: rest).map (fun i => (i, mkSessionInfo cfg i w u now))) =
      rest.map (fun i => (i, mkSessionInfo cfg i w u now)) from aerase_head _ _ _]
    rw [show aerase (mkSessionInfo cfg o w u now).username [(u, o :: rest)] =
      ([] : List (String × List Nat)) from aerase_head _ _ _]
    rw [show aset (mkSessionInfo cfg o w u now).username rest [(u, o :: rest)] =
      [(u, rest)] from aset_head _ _ _ _]
  simp only [login_store]
  rw [hul]
  rw [if_pos (And.intro hL (le_of_eq hlen.symm))]
  show ((cleanup_session o
      ⟨(o :: rest).map (fun i => (i, mkSessionInfo cfg i w u now)),
       [(u, o :: rest)], n⟩).next_session_id, some o,
    (⟨aset (cleanup_session o
          ⟨(o :: rest).map (fun i => (i, mkSessionInfo cfg i w u now)),
           [(u, o :: rest)], n⟩).next_session_id
        (mkSessionInfo cfg (cleanup_session o
          ⟨(o :: rest).map (fun i => (i, mkSessionInfo cfg i w u now)),
           [(u, o :: rest)], n⟩).next_session_id w u now)
        (cleanup_session o
          ⟨(o :: rest).map (fun i => (i, mkSessionInfo cfg i w u now)),
           [(u, o :: rest)], n⟩).active_sessions,
      aset u (userList
          (cleanup_session o
            ⟨(o :: rest).map (fun i => (i, mkSessionInfo cfg i w u now)),
             [(u, o :: rest)], n⟩) u ++
          [(cleanup_session o
            ⟨(o :: rest).map (fun i => (i, mkSessionInfo cfg i w u now)),
             [(u, o :: rest)], n⟩).next_session_id])
        (cleanup_session o
          ⟨(o :: rest).map (fun i => (i, mkSessionInfo cfg i w u now)),
           [(u, o :: rest)], n⟩).sessions_by_user,
      (cleanup_session o
        ⟨(o :: rest).map (fun i => (i, mkSessionInfo cfg i w u now)),
         [(u, o :: rest)], n⟩).next_session_id + 1⟩ : ServerState)) = _
  rw [hclean]
  show (n, some o,
    (⟨aset n (mkSessionInfo cfg n w u now)
        (rest.map (fun i => (i, mkSessionInfo cfg i w u now))),
      aset u (userList
          ⟨rest.map (fun i => (i, mkSessionInfo cfg i w u now)),
           if rest.isEmpty then [] else [(u, rest)], n⟩ u ++ [n])
        (if rest.isEmpty then [] else [(u, rest)]),
      n + 1⟩ : ServerState)) = _
  cases rest with
  | nil => exact rfl
  | cons a t =>
      have hul3 : userList
          ⟨(a :: t).map (fun i => (i, mkSessionInfo cfg i w u now)),
           if (a :: t).isEmpty then [] else [(u, a :: t)], n⟩ u = a :: t := by
        show (alookup u [(u, a :: t)]).getD [] = _
        rw [alookup_head]
        rfl
      rw [hul3]
      rw [if_neg (show ¬ ((a :: t) : List Nat).isEmpty = true by simp)]
      rw [show aset u ((a :: t) ++ [n]) [(u, a :: t)] = [(u, (a :: t) ++ [n])]
        from aset_head _ _ _ _]
      rw [show aset n (mkSessionInfo cfg n w u now)
          ((a :: t).map (fun i => (i, mkSessionInfo cfg i w u now))) =
        (a :: t).map (fun i => (i, mkSessionInfo cfg i w u now)) ++
          [(n, mkSessionInfo cfg n w u now)]
        from aset_append_of_not_mem _ (by rw [keys_of_mapped]; exact hno)]
      rw [List.map_append]
      rfl

theorem login_success_eq2 (cfg : Config) (u : String) (now : Nat) (w : TaigaClientWrapper)
    (st : ServerState) (rate rate1 : RateData)
    (hc : check_rate_limit cfg u now rate = (RateCheckResult.ok, rate1)) :
    login cfg u w true now ⟨st, rate⟩ =
      (LoginOutcome.success (login_store cfg u w now st).1
          (login_store cfg u w now st).2.1,
        ⟨(login_store cfg u w now st).2.2, track_login_attempt u true now rate1⟩) := by
  unfold login
  rw [show check_rate_limit cfg u now
    ((⟨st, rate⟩ : SystemState)).rate_limit_data = (RateCheckResult.ok, rate1) from hc]
  exact rfl

/-- The fresh process state: empty session store and no rate-limit
records, id counter at zero. -/
def init_system : SystemState := ⟨⟨[], [], 0⟩, []⟩

/-- n sequential successful logins of the same user from the fresh
state, all at the same instant. -/
def iterate_logins (cfg : Config) (u : String) (w : TaigaClientWrapper) (now : Nat) :
    Nat → SystemState
  | 0 => init_system
  | n + 1 => (login cfg u w true now (iterate_logins cfg u w now n)).2

theorem check_at_formula_rate (cfg : Config) (u : String) (now : Nat) (n : Nat) :
    check_rate_limit cfg u now
      (if n = 0 then [] else [(u, ⟨List.replicate n ⟨now, u, true⟩, none⟩)]) =
      (RateCheckResult.ok,
        if n = 0 then [] else [(u, ⟨List.replicate n ⟨now, u, true⟩, none⟩)]) := by
  by_cases hM : cfg.login_max_attempts = 0
  · exact check_rate_limit_disabled hM
  · by_cases hn : n = 0
    · rw [if_pos hn]
      exact check_rate_limit_none hM rfl
    · rw [if_neg hn]
      exact check_at_success_record cfg u now hM n

theorem login_at_formula_state (cfg : Config) (u : String) (w : TaigaClientWrapper)
    (now : Nat) (hL : 0 < cfg.max_concurrent_sessions) (n : Nat) :
    login cfg u w true now
      ⟨⟨(List.range' (n - min n cfg.max_concurrent_sessions)
            (min n cfg.max_concurrent_sessions)).map
          (fun i => (i, mkSessionInfo cfg i w u now)),
        if n = 0 then []
        else [(u, List.range' (n - min n cfg.max_concurrent_sessions)
            (min n cfg.max_concurrent_sessions))],
        n⟩,
       if n = 0 then [] else [(u, ⟨List.replicate n ⟨now, u, true⟩, none⟩)]⟩ =
      (LoginOutcome.success n
        (if n < cfg.max_concurrent_sessions then none
         else some (n - cfg.max_concurrent_sessions)),
       ⟨⟨(List.range' (n + 1 - min (n + 1) cfg.max_concurrent_sessions)
            (min (n + 1) cfg.max_concurrent_sessions)).map
          (fun i => (i, mkSessionInfo cfg i w u now)),
        [(u, List.range' (n + 1 - min (n + 1) cfg.max_concurrent_sessions)
            (min (n + 1) cfg.max_concurrent_sessions))],
        n + 1⟩,
       [(u, ⟨List.replicate (n + 1) ⟨now, u, true⟩, none⟩)]⟩) := by
  by_cases hn0 : n = 0
  · subst hn0
    rw [show min 0 cfg.max_concurrent_sessions = 0 from by omega]
    rw [show min 1 cfg.max_concurrent_sessions = 1 from by omega]
    rw [if_pos hL]
    show login cfg u w true now ⟨⟨[], [], 0⟩, []⟩ =
      (LoginOutcome.success 0 none,
        ⟨⟨[(0, mkSessionInfo cfg 0 w u now)], [(u, [0])], 1⟩,
         [(u, ⟨[⟨now, u, true⟩], none⟩)]⟩)
    have hcheck : check_rate_limit cfg u now ([] : RateData) =
        (RateCheckResult.ok, ([] : RateData)) := by
      by_cases hM : cfg.login_max_attempts = 0
      · exact check_rate_limit_disabled hM
      · exact check_rate_limit_none hM rfl
    rw [login_success_eq2 cfg u now w ⟨[], [], 0⟩ [] [] hcheck]
    rw [login_store_at_empty cfg u w now]
    exact rfl
  · rw [if_neg hn0, if_neg hn0]
    have hcheck : check_rate_limit cfg u now
        [(u, ⟨List.replicate n ⟨now, u, true⟩, none⟩)] =
        (RateCheckResult.ok, [(u, ⟨List.replicate n ⟨now, u, true⟩, none⟩)]) := by
      by_cases hM : cfg.login_max_attempts = 0
      · exact check_rate_limit_disabled hM
      · exact check_at_success_record cfg u now hM n
    by_cases hnL : n < cfg.max_concurrent_sessions
    · rw [show min n cfg.max_concurrent_sessions = n from by omega]
      rw [show min (n + 1) cfg.max_concurrent_sessions = n + 1 from by omega]
      rw [Nat.sub_self, Nat.sub_self, if_pos hnL]
      rw [login_success_eq2 cfg u now w
        ⟨(List.range' 0 n).map (fun i => (i, mkSessionInfo cfg i w u now)),
         [(u, List.range' 0 n)], n⟩
        [(u, ⟨List.replicate n ⟨now, u, true⟩, none⟩)]
        [(u, ⟨List.replicate n ⟨now, u, true⟩, none⟩)] hcheck]
      rw [login_store_no_evict cfg u w now n hnL]
      rw [track_true_at_success_record u now n]
    · rw [show min n cfg.max_concurrent_sessions = cfg.max_concurrent_sessions
        from by omega]
      rw [show min (n + 1) cfg.max_concurrent_sessions = cfg.max_concurrent_sessions
        from by omega]
      rw [if_neg hnL]
      rw [range'_eq_cons (n - cfg.max_concurrent_sessions)
        cfg.max_concurrent_sessions hL]
      rw [range'_eq_concat (n + 1 - cfg.max_concurrent_sessions)
        cfg.max_concurrent_sessions hL]
      rw [show n + 1 - cfg.max_concurrent_sessions =
        n - cfg.max_concurrent_sessions + 1 from by omega]
      rw [show n - cfg.max_concurrent_sessions + 1 +
        (cfg.max_concurrent_sessions - 1) = n from by omega]
      rw [login_success_eq2 cfg u now w
        ⟨((n - cfg.max_concurrent_sessions) ::
            List.range' (n - cfg.max_concurrent_sessions + 1)
              (cfg.max_concurrent_sessions - 1)).map
          (fun i => (i, mkSessionInfo cfg i w u now)),
         [(u, (n - cfg.max_concurrent_sessions) ::
            List.range' (n - cfg.max_concurrent_sessions + 1)
              (cfg.max_concurrent_sessions - 1))], n⟩
        [(u, ⟨List.replicate n ⟨now, u, true⟩, none⟩)]
        [(u, ⟨List.replicate n ⟨now, u, true⟩, none⟩)] hcheck]
      rw [login_store_evict_general cfg u w now n (n - cfg.max_concurrent_sessions)
        (List.range' (n - cfg.max_concurrent_sessions + 1)
          (cfg.max_concurrent_sessions - 1)) hL
        (by simp only [List.length_cons, range'_length]; omega)
        (not_mem_range'_self_ge (by omega))]
      rw [track_true_at_success_record u now n]

theorem iterate_logins_formula (cfg : Config) (u : String) (w : TaigaClientWrapper)
    (now : Nat) (hL : 0 < cfg.max_concurrent_sessions) :
    ∀ n, iterate_logins cfg u w now n =
      ⟨⟨(List.range' (n - min n cfg.max_concurrent_sessions)
            (min n cfg.max_concurrent_sessions)).map
          (fun i => (i, mkSessionInfo cfg i w u now)),
        if n = 0 then []
        else [(u, List.range' (n - min n cfg.max_concurrent_sessions)
            (min n cfg.max_concurrent_sessions))],
        n⟩,
       if n = 0 then [] else [(u, ⟨List.replicate n ⟨now, u, true⟩, none⟩)]⟩ := by
  intro n
  induction n with
  | zero =>
      rw [show min 0 cfg.max_concurrent_sessions = 0 from by omega]
      rfl
  | succ n ih =>
      show (login cfg u w true now (iterate_logins cfg u w now n)).2 = _
      rw [ih, login_at_formula_state cfg u w now hL n]
      rfl

/-- C3: for a configured concurrent-session limit L > 0, after L+1
sequential successful logins of the same user from a fresh state,
exactly L sessions remain for that user (the identifiers of logins 2
through L+1); each of the first L logins evicts nothing, the (L+1)-th
login evicts exactly the oldest session (index 0 of the list, the first
login), and the evicted identifier is gone from the session store. -/
theorem C3_concurrent_session_eviction (cfg : Config) (u : String)
    (w : TaigaClientWrapper) (now : Nat) (L : Nat)
    (hLdef : cfg.max_concurrent_sessions = L) (hL : 0 < L) :
    (userList (iterate_logins cfg u w now (L + 1)).sessions u).length = L ∧
    userList (iterate_logins cfg u w now (L + 1)).sessions u = List.range' 1 L ∧
    (∀ k, k < L →
      (login cfg u w true now (iterate_logins cfg u w now k)).1 =
        LoginOutcome.success k none) ∧
    (login cfg u w true now (iterate_logins cfg u w now L)).1 =
      LoginOutcome.success L (some 0) ∧
    alookup 0 (iterate_logins cfg u w now (L + 1)).sessions.active_sessions = none := by
  subst hLdef
  have hform := iterate_logins_formula cfg u w now hL
  have hulist : userList (iterate_logins cfg u w now
      (cfg.max_concurrent_sessions + 1)).sessions u =
      List.range' 1 cfg.max_concurrent_sessions := by
    rw [hform (cfg.max_concurrent_sessions + 1)]
    show (alookup u [(u, List.range'
        (cfg.max_concurrent_sessions + 1 -
          min (cfg.max_concurrent_sessions + 1) cfg.max_concurrent_sessions)
        (min (cfg.max_concurrent_sessions + 1) cfg.max_concurrent_sessions))]).getD []
      = _
    rw [alookup_head]
    rw [show min (cfg.max_concurrent_sessions + 1) cfg.max_concurrent_sessions =
      cfg.max_concurrent_sessions from by omega]
    rw [show cfg.max_concurrent_sessions + 1 - cfg.max_concurrent_sessions = 1
      from by omega]
    rfl
  refine ⟨?_, hulist, ?_, ?_, ?_⟩
  · rw [hulist, range'_length]
  · intro k hk
    rw [hform k, login_at_formula_state cfg u w now hL k]
    show LoginOutcome.success k
        (if k < cfg.max_concurrent_sessions then none
         else some (k - cfg.max_concurrent_sessions)) = _
    rw [if_pos hk]
  · rw [hform cfg.max_concurrent_sessions,
      login_at_formula_state cfg u w now hL cfg.max_concurrent_sessions]
    show LoginOutcome.success cfg.max_concurrent_sessions
        (if cfg.max_concurrent_sessions < cfg.max_concurrent_sessions then none
         else some (cfg.max_concurrent_sessions - cfg.max_concurrent_sessions)) = _
    rw [if_neg (by omega), Nat.sub_self]
  · rw [hform (cfg.max_concurrent_sessions + 1)]
    show alookup 0 ((List.range'
        (cfg.max_concurrent_sessions + 1 -
          min (cfg.max_concurrent_sessions + 1) cfg.max_concurrent_sessions)
        (min (cfg.max_concurrent_sessions + 1) cfg.max_concurrent_sessions)).map
      (fun i => (i, mkSessionInfo cfg i w u now))) = none
    rw [show min (cfg.max_concurrent_sessions + 1) cfg.max_concurrent_sessions =
      cfg.max_concurrent_sessions from by omega]
    rw [show cfg.max_concurrent_sessions + 1 - cfg.max_concurrent_sessions = 1
      from by omega]
    apply alookup_none_of_not_mem
    rw [keys_of_mapped]
    intro hmem
    have h2 := List.mem_range'_1.mp hmem
    omega

theorem C3_witness :
    (userList (iterate_logins ⟨28800, 2, 5, 60, 900⟩ "bob" ⟨7, true⟩ 100 3).sessions
        "bob").length = 2 ∧
    (login ⟨28800, 2, 5, 60, 900⟩ "bob" ⟨7, true⟩ true 100
        (iterate_logins ⟨28800, 2, 5, 60, 900⟩ "bob" ⟨7, true⟩ 100 2)).1 =
      LoginOutcome.success 2 (some 0) ∧
    alookup 0 (iterate_logins ⟨28800, 2, 5, 60, 900⟩ "bob" ⟨7, true⟩
        100 3).sessions.active_sessions = none :=
  ⟨(C3_concurrent_session_eviction ⟨28800, 2, 5, 60, 900⟩ "bob" ⟨7, true⟩ 100 2
      (by decide) (by decide)).1,
   (C3_concurrent_session_eviction ⟨28800, 2, 5, 60, 900⟩ "bob" ⟨7, true⟩ 100 2
      (by decide) (by decide)).2.2.2.1,
   (C3_concurrent_session_eviction ⟨28800, 2, 5, 60, 900⟩ "bob" ⟨7, true⟩ 100 2
      (by decide) (by decide)).2.2.2.2⟩
